import Mathlib

/-!
# Tarian: consensus parameters, upgrade activation, block signatures, zerocoin spend checks

A shallow embedding of `src/chainparams.cpp` (genesis block construction and the three network
parameter sets), together with models of the operations that the repository only declares in
`src/blocksignature.h` and `src/consensus/zerocoin_verify.h`.

Conventions.
* `int`/`int32_t`/`int64_t` values are `Int`, `uint32_t` values and bytes are `Nat`; the only
  arithmetic in the embedded code is multiplication of literals, so no wrap-around is modelled.
* `uint256S("0x..")` literals are written as the number they spell, and `ParseHex("..")`
  literals as the list of bytes they spell.
* Everything `chainparams.cpp` takes from headers that are not part of `src/` (currency unit
  constants, the activation sentinels, the hash functions, the seed tables, the state left by the
  base-class constructor) is a field of `Externals`; theorems quantify over it.
-/

namespace Tarian

/-- A 256-bit unsigned value (`uint256`). -/
abbrev uint256 := Nat

/-- An amount of money in base units (`CAmount`, a signed 64-bit integer). -/
abbrev CAmount := Int

/-- One operand pushed on a `CScript` with `<<`, kept symbolic: the byte encoding of a push is
defined in `script/script.h`, which is not part of `src/`. -/
inductive ScriptItem
  | int (n : Int)
  | scriptNum (n : Int)
  | bytes (b : List Nat)
  | OP_CHECKSIG
  deriving DecidableEq, Repr

/-- A script: the sequence of `<<` operands, in order. -/
abbrev CScript := List ScriptItem

/-- A transaction input; `vin.resize(1)` leaves everything but `scriptSig` at its default. -/
structure CTxIn where
  scriptSig : CScript := []
  deriving DecidableEq, Repr, Inhabited

/-- A transaction output. -/
structure CTxOut where
  nValue : CAmount := 0
  scriptPubKey : CScript := []
  deriving DecidableEq, Repr, Inhabited

/-- The fields of `CMutableTransaction` that `CreateGenesisBlock` sets. -/
structure CMutableTransaction where
  nVersion : Int := 0
  vin : List CTxIn := []
  vout : List CTxOut := []
  deriving DecidableEq, Repr, Inhabited

/-- Block header fields (spec section 6: version, previous-block hash, merkle root, time,
difficulty bits, nonce). -/
structure CBlockHeader where
  nVersion : Int := 0
  hashPrevBlock : uint256 := 0
  hashMerkleRoot : uint256 := 0
  nTime : Nat := 0
  nBits : Nat := 0
  nNonce : Nat := 0
  deriving DecidableEq, Repr, Inhabited

/-- A block: header, transaction list and the block signature bytes. -/
structure CBlock extends CBlockHeader where
  vtx : List CMutableTransaction := []
  vchBlockSig : List Nat := []
  deriving DecidableEq, Repr, Inhabited

/-- Networks (`CBaseChainParams::Network`); `MAX_NETWORK_TYPES` is the enumeration's end marker. -/
inductive Network
  | MAIN
  | TESTNET
  | REGTEST
  | MAX_NETWORK_TYPES
  deriving DecidableEq, Repr, Inhabited

/-- Upgrade indices (`Consensus::UpgradeIndex`), the entries `chainparams.cpp` assigns. -/
inductive UpgradeIndex
  | BASE_NETWORK
  | UPGRADE_TESTDUMMY
  | UPGRADE_POS
  | UPGRADE_POS_V2
  | UPGRADE_ZC
  | UPGRADE_ZC_V2
  | UPGRADE_BIP65
  | UPGRADE_ZC_PUBLIC
  | UPGRADE_V3_4
  | UPGRADE_V4_0
  | UPGRADE_V5_DUMMY
  deriving DecidableEq, Repr, Inhabited

/-- One entry of the activation table (`Consensus::NetworkUpgrade`): activation height and the
optional pinned block hash. -/
structure NetworkUpgrade where
  nActivationHeight : Int := 0
  hashActivationBlock : Option uint256 := none
  deriving DecidableEq, Repr, Inhabited

/-- Address-prefix kinds (`CChainParams::Base58Type`). -/
inductive Base58Type
  | PUBKEY_ADDRESS
  | SCRIPT_ADDRESS
  | STAKING_ADDRESS
  | SECRET_KEY
  | EXT_PUBLIC_KEY
  | EXT_SECRET_KEY
  | EXT_COIN_TYPE
  deriving DecidableEq, Repr, Inhabited

/-- A DNS seed entry (`CDNSSeedData(name, host, supportsServiceBitsFiltering)`). -/
structure CDNSSeedData where
  name : String
  host : String
  supportsServiceBitsFiltering : Bool
  deriving DecidableEq, Repr

/-- A fixed seed entry (`SeedSpec6`). -/
structure SeedSpec6 where
  addr : List Nat
  port : Nat
  deriving DecidableEq, Repr

/-- The consensus parameters (`Consensus::Params`): the fields `chainparams.cpp` assigns. -/
structure Consensus.Params where
  hashGenesisBlock : uint256 := 0
  fPowAllowMinDifficultyBlocks : Bool := false
  powLimit : uint256 := 0
  posLimitV1 : uint256 := 0
  posLimitV2 : uint256 := 0
  nBudgetCycleBlocks : Int := 0
  nBudgetFeeConfirmations : Int := 0
  nCoinbaseMaturity : Int := 0
  nFutureTimeDriftPoW : Int := 0
  nFutureTimeDriftPoS : Int := 0
  nMasternodeCountDrift : Int := 0
  nMaxMoneyOut : CAmount := 0
  nPoolMaxTransactions : Int := 0
  nProposalEstablishmentTime : Int := 0
  nStakeMinAge : Int := 0
  nStakeMinDepth : Int := 0
  nTargetTimespan : Int := 0
  nTargetTimespanV2 : Int := 0
  nTargetSpacing : Int := 0
  nTimeSlotLength : Int := 0
  strSporkPubKey : String := ""
  strSporkPubKeyOld : String := ""
  nTime_EnforceNewSporkKey : Int := 0
  nTime_RejectOldSporkKey : Int := 0
  height_last_ZC_AccumCheckpoint : Int := 0
  height_last_ZC_WrappedSerials : Int := 0
  height_start_InvalidUTXOsCheck : Int := 0
  height_start_ZC_InvalidSerials : Int := 0
  height_start_ZC_SerialRangeCheck : Int := 0
  height_ZC_RecalcAccumulators : Int := 0
  nTarianBadBlockTime : Int := 0
  nTarianBadBlockBits : Int := 0
  ZC_Modulus : String := ""
  ZC_MaxPublicSpendsPerTx : Int := 0
  ZC_MaxSpendsPerTx : Int := 0
  ZC_MinMintConfirmations : Int := 0
  ZC_MinMintFee : CAmount := 0
  ZC_MinStakeDepth : Int := 0
  ZC_TimeStart : Int := 0
  ZC_WrappedSerialsSupply : CAmount := 0
  vUpgrades : UpgradeIndex → NetworkUpgrade := fun _ => {}

/-- The per-network parameter object (`CChainParams`): the fields `chainparams.cpp` assigns. -/
structure CChainParams where
  networkID : Network := Network.MAIN
  strNetworkID : String := ""
  genesis : CBlock := {}
  consensus : Consensus.Params := {}
  pchMessageStart : Fin 4 → Nat := fun _ => 0
  nDefaultPort : Int := 0
  vSeeds : List CDNSSeedData := []
  base58Prefixes : Base58Type → List Nat := fun _ => []
  vFixedSeeds : List SeedSpec6 := []

/-- What `chainparams.cpp` uses from headers outside `src/`: `COIN` and `CENT` (amount.h), the two
activation sentinels (consensus/params.h), the header hash `CBlock::GetHash`, `BlockMerkleRoot`
(consensus/merkle.h), the fixed seed tables (chainparamsseeds.h), the object state `base` that
the base-class constructor leaves before a constructor body runs, and the numeric values of the
`Consensus::UpgradeIndex` enumerators with the end marker `MAX_NETWORK_UPGRADES`
(consensus/params.h). -/
structure Externals where
  COIN : CAmount
  CENT : CAmount
  ALWAYS_ACTIVE : Int
  NO_ACTIVATION_HEIGHT : Int
  GetHash : CBlockHeader → uint256
  BlockMerkleRoot : CBlock → uint256
  pnSeed6_main : List SeedSpec6
  pnSeed6_test : List SeedSpec6
  base : CChainParams
  upgradeIndexValue : UpgradeIndex → Int
  MAX_NETWORK_UPGRADES : Int

/-- The assignment `vUpgrades[idx].nActivationHeight = h`. -/
def setActivationHeight (v : UpgradeIndex → NetworkUpgrade) (idx : UpgradeIndex) (h : Int) :
    UpgradeIndex → NetworkUpgrade :=
  Function.update v idx { v idx with nActivationHeight := h }

/-- The assignment `vUpgrades[idx].hashActivationBlock = hash`. -/
def setActivationHash (v : UpgradeIndex → NetworkUpgrade) (idx : UpgradeIndex) (hash : uint256) :
    UpgradeIndex → NetworkUpgrade :=
  Function.update v idx { v idx with hashActivationBlock := some hash }

/-- The seven-argument `CreateGenesisBlock` (chainparams.cpp 19-38).  The C string
`pszTimestamp` is pushed as its `strlen` bytes: the bytes of the string up to the first zero
byte. -/
def CreateGenesisBlock.withScript (ext : Externals) (pszTimestamp : String)
    (genesisOutputScript : CScript) (nTime nNonce nBits : Nat) (nVersion : Int)
    (genesisReward : CAmount) : CBlock :=
  let txNew : CMutableTransaction := {}
  let txNew := { txNew with nVersion := 1 }
  let txNew := { txNew with vin := [{}] }
  let txNew := { txNew with vout := [{}] }
  let txNew := { txNew with vin := txNew.vin.modifyHead fun i => { i with scriptSig :=
    [ScriptItem.int 486604799, ScriptItem.scriptNum 4,
     ScriptItem.bytes
       ((pszTimestamp.toUTF8.data.toList.takeWhile (· ≠ 0)).map UInt8.toNat)] } }
  let txNew := { txNew with vout := txNew.vout.modifyHead fun o => { o with nValue := genesisReward } }
  let txNew := { txNew with vout := txNew.vout.modifyHead fun o =>
    { o with scriptPubKey := genesisOutputScript } }
  let genesis : CBlock := {}
  let genesis := { genesis with vtx := genesis.vtx ++ [txNew] }
  let genesis := { genesis with hashPrevBlock := 0 }
  let genesis := { genesis with nVersion := nVersion }
  let genesis := { genesis with nTime := nTime }
  let genesis := { genesis with nBits := nBits }
  let genesis := { genesis with nNonce := nNonce }
  { genesis with hashMerkleRoot := ext.BlockMerkleRoot genesis }

/-- The five-argument `CreateGenesisBlock` (chainparams.cpp 50-55): empty timestamp string and
the hard-coded public key followed by `OP_CHECKSIG` as output script. -/
def CreateGenesisBlock (ext : Externals) (nTime nNonce nBits : Nat) (nVersion : Int)
    (genesisReward : CAmount) : CBlock :=
  let pszTimestamp := ""
  let genesisOutputScript : CScript := [ScriptItem.bytes [
     0x04, 0x67, 0x8a, 0xfd, 0xb0, 0xfe, 0x55, 0x48, 0x27, 0x19, 0x67, 0xf1, 0xa6,
     0x71, 0x30, 0xb7, 0x10, 0x5c, 0xd6, 0xa8, 0x28, 0xe0, 0x39, 0x09, 0xa6, 0x79,
     0x62, 0xe0, 0xea, 0x1f, 0x61, 0xde, 0xb6, 0x49, 0xf6, 0xbc, 0x3f, 0x4c, 0xef,
     0x38, 0xc4, 0xf3, 0x55, 0x04, 0xe5, 0x1e, 0xc1, 0x12, 0xde, 0x5c, 0x38, 0x4d,
     0xf7, 0xba, 0x0b, 0x8d, 0x57, 0x8a, 0x4c, 0x70, 0x2b, 0x6b, 0xf1, 0x1d, 0x5f], ScriptItem.OP_CHECKSIG]
  CreateGenesisBlock.withScript ext pszTimestamp genesisOutputScript nTime nNonce nBits nVersion
    genesisReward

/-- Constructor body of `CMainParams` (chainparams.cpp 100-210), run on the object `self` as the
base-class constructor left it.  An `assert` that fails aborts start-up: the result is `none`. -/
def CMainParams.ctor (ext : Externals) (self : CChainParams) : Option CChainParams :=
  let self := { self with networkID := Network.MAIN, strNetworkID := "main" }
  let self := { self with genesis := CreateGenesisBlock ext 1600458983 1112032 0x1e0ffff0 1 (250 * ext.COIN) }
  let self := { self with consensus := { self.consensus with hashGenesisBlock := ext.GetHash self.genesis.toCBlockHeader } }
  if self.consensus.hashGenesisBlock ≠ 0x000002301ce038d4bcf0d6ef41844463b0be300888b85da7b936073d02944c99 then none
  else if self.genesis.hashMerkleRoot ≠ 0x148723258586946f5463cf095941823596a831f897260dbcbb3670529b028c5f then none
  else
  let consensus := { self.consensus with
      fPowAllowMinDifficultyBlocks := false
      powLimit := (2 ^ 256 - 1) >>> 20
      posLimitV1 := (2 ^ 256 - 1) >>> 24
      posLimitV2 := (2 ^ 256 - 1) >>> 20
      nBudgetCycleBlocks := 43200
      nBudgetFeeConfirmations := 6
      nCoinbaseMaturity := 100
      nFutureTimeDriftPoW := 7200
      nFutureTimeDriftPoS := 180
      nMasternodeCountDrift := 20
      nMaxMoneyOut := 10191520 * ext.COIN
      nPoolMaxTransactions := 3
      nProposalEstablishmentTime := 60 * 60 * 24
      nStakeMinAge := 60 * 60
      nStakeMinDepth := 600
      nTargetTimespan := 40 * 60
      nTargetTimespanV2 := 30 * 60
      nTargetSpacing := 1 * 60
      nTimeSlotLength := 15
      strSporkPubKey := "040F129DE6546FE405995329A887329BED4321325B1A73B0A257423C05C1FCFE9E40EF0678AEF59036A22C42E61DFD29DF7EFB09F56CC73CADF64E05741880E3E7"
      strSporkPubKeyOld := ""
      nTime_EnforceNewSporkKey := 0
      nTime_RejectOldSporkKey := 0
      height_last_ZC_AccumCheckpoint := 0
      height_last_ZC_WrappedSerials := 0
      height_start_InvalidUTXOsCheck := 999999999
      height_start_ZC_InvalidSerials := 0
      height_start_ZC_SerialRangeCheck := 999999999
      height_ZC_RecalcAccumulators := 999999999
      nTarianBadBlockTime := 1471401614
      nTarianBadBlockBits := 0x1c056dac
      ZC_Modulus := "25195908475657893494027183240048398571429282126204032027777137836043662020707595556264018525880784406918290641249515082189298559149176184502808489120072844992687392807287776735971418347270261896375014971824691165077613379859095700097330459748808428401797429100642458691817195118746121515172654632282216869987549182422433637259085141865462043576798423387184774447920739934236584823824281198163815010674810451660377306056201619676256133844143603833904414952634432190114657544454178424020924616515723350778707749817125772467962926386356373289912154831438167899885040445364023527381951378636564391212010397122822120720357"
      ZC_MaxPublicSpendsPerTx := 637
      ZC_MaxSpendsPerTx := 7
      ZC_MinMintConfirmations := 20
      ZC_MinMintFee := 1 * ext.CENT
      ZC_MinStakeDepth := 200
      ZC_TimeStart := 1508214600
      ZC_WrappedSerialsSupply := 0 * ext.COIN }
  let vUpgrades := consensus.vUpgrades
  let vUpgrades := setActivationHeight vUpgrades UpgradeIndex.BASE_NETWORK ext.ALWAYS_ACTIVE
  let vUpgrades := setActivationHeight vUpgrades UpgradeIndex.UPGRADE_TESTDUMMY ext.NO_ACTIVATION_HEIGHT
  let vUpgrades := setActivationHeight vUpgrades UpgradeIndex.UPGRADE_POS 5001
  let vUpgrades := setActivationHeight vUpgrades UpgradeIndex.UPGRADE_POS_V2 5010
  let vUpgrades := setActivationHeight vUpgrades UpgradeIndex.UPGRADE_ZC 5050
  let vUpgrades := setActivationHeight vUpgrades UpgradeIndex.UPGRADE_ZC_V2 5100
  let vUpgrades := setActivationHeight vUpgrades UpgradeIndex.UPGRADE_BIP65 ext.ALWAYS_ACTIVE
  let vUpgrades := setActivationHeight vUpgrades UpgradeIndex.UPGRADE_ZC_PUBLIC 6000
  let vUpgrades := setActivationHeight vUpgrades UpgradeIndex.UPGRADE_V3_4 5300
  let vUpgrades := setActivationHeight vUpgrades UpgradeIndex.UPGRADE_V4_0 5400
  let vUpgrades := setActivationHeight vUpgrades UpgradeIndex.UPGRADE_V5_DUMMY ext.NO_ACTIVATION_HEIGHT
  let vUpgrades := setActivationHash vUpgrades UpgradeIndex.UPGRADE_ZC 0x1
  let vUpgrades := setActivationHash vUpgrades UpgradeIndex.UPGRADE_ZC_V2 0x1
  let vUpgrades := setActivationHash vUpgrades UpgradeIndex.UPGRADE_BIP65 0x0
  let vUpgrades := setActivationHash vUpgrades UpgradeIndex.UPGRADE_ZC_PUBLIC 0x1
  let vUpgrades := setActivationHash vUpgrades UpgradeIndex.UPGRADE_V3_4 0x1
  let vUpgrades := setActivationHash vUpgrades UpgradeIndex.UPGRADE_V4_0 0x1
  let pchMessageStart := Function.update self.pchMessageStart 0 0x42
  let pchMessageStart := Function.update pchMessageStart 1 0xa3
  let pchMessageStart := Function.update pchMessageStart 2 0x72
  let pchMessageStart := Function.update pchMessageStart 3 0x34
  let base58Prefixes := Function.update self.base58Prefixes Base58Type.PUBKEY_ADDRESS [65]
  let base58Prefixes := Function.update base58Prefixes Base58Type.SCRIPT_ADDRESS [18]
  let base58Prefixes := Function.update base58Prefixes Base58Type.STAKING_ADDRESS [125]
  let base58Prefixes := Function.update base58Prefixes Base58Type.SECRET_KEY [127]
  let base58Prefixes := Function.update base58Prefixes Base58Type.EXT_PUBLIC_KEY [0x06, 0x4F, 0x62, 0x66]
  let base58Prefixes := Function.update base58Prefixes Base58Type.EXT_SECRET_KEY [0x06, 0x2F, 0x47, 0x5E]
  let base58Prefixes := Function.update base58Prefixes Base58Type.EXT_COIN_TYPE [0x40, 0x00, 0x00, 0x33]
  some { self with
    consensus := { consensus with vUpgrades := vUpgrades }
    pchMessageStart := pchMessageStart
    nDefaultPort := 51472
    vSeeds := self.vSeeds ++ [CDNSSeedData.mk "" "" true]
    base58Prefixes := base58Prefixes
    vFixedSeeds := ext.pnSeed6_main }

/-- Constructor body of `CTestNetParams` (chainparams.cpp 226-340).  The class derives from
`CMainParams`, so this body runs on the object the main constructor produced. -/
def CTestNetParams.body (ext : Externals) (self : CChainParams) : Option CChainParams :=
  let self := { self with networkID := Network.TESTNET, strNetworkID := "test" }
  let self := { self with genesis := CreateGenesisBlock ext 1600458983 0 0x1e0ffff0 1 (250 * ext.COIN) }
  let self := { self with genesis := CreateGenesisBlock ext 1600458983 1112032 0x1e0ffff0 1 (250 * ext.COIN) }
  let self := { self with consensus := { self.consensus with hashGenesisBlock := ext.GetHash self.genesis.toCBlockHeader } }
  if self.consensus.hashGenesisBlock ≠ 0x000002301ce038d4bcf0d6ef41844463b0be300888b85da7b936073d02944c99 then none
  else if self.genesis.hashMerkleRoot ≠ 0x148723258586946f5463cf095941823596a831f897260dbcbb3670529b028c5f then none
  else
  let consensus := { self.consensus with
      fPowAllowMinDifficultyBlocks := false
      powLimit := (2 ^ 256 - 1) >>> 20
      posLimitV1 := (2 ^ 256 - 1) >>> 24
      posLimitV2 := (2 ^ 256 - 1) >>> 20
      nBudgetCycleBlocks := 43200
      nBudgetFeeConfirmations := 6
      nCoinbaseMaturity := 100
      nFutureTimeDriftPoW := 7200
      nFutureTimeDriftPoS := 180
      nMasternodeCountDrift := 20
      nMaxMoneyOut := 10191520 * ext.COIN
      nPoolMaxTransactions := 3
      nProposalEstablishmentTime := 60 * 60 * 24
      nStakeMinAge := 60 * 60
      nStakeMinDepth := 600
      nTargetTimespan := 40 * 60
      nTargetTimespanV2 := 30 * 60
      nTargetSpacing := 1 * 60
      nTimeSlotLength := 15
      strSporkPubKey := "040F129DE6546FE405995329A887329BED4321325B1A73B0A257423C05C1FCFE9E40EF0678AEF59036A22C42E61DFD29DF7EFB09F56CC73CADF64E05741880E3E7"
      strSporkPubKeyOld := ""
      nTime_EnforceNewSporkKey := 0
      nTime_RejectOldSporkKey := 0
      height_last_ZC_AccumCheckpoint := 0
      height_last_ZC_WrappedSerials := 0
      height_start_InvalidUTXOsCheck := 999999999
      height_start_ZC_InvalidSerials := 0
      height_start_ZC_SerialRangeCheck := 999999999
      height_ZC_RecalcAccumulators := 999999999
      nTarianBadBlockTime := 1471401614
      nTarianBadBlockBits := 0x1c056dac
      ZC_Modulus := "25195908475657893494027183240048398571429282126204032027777137836043662020707595556264018525880784406918290641249515082189298559149176184502808489120072844992687392807287776735971418347270261896375014971824691165077613379859095700097330459748808428401797429100642458691817195118746121515172654632282216869987549182422433637259085141865462043576798423387184774447920739934236584823824281198163815010674810451660377306056201619676256133844143603833904414952634432190114657544454178424020924616515723350778707749817125772467962926386356373289912154831438167899885040445364023527381951378636564391212010397122822120720357"
      ZC_MaxPublicSpendsPerTx := 637
      ZC_MaxSpendsPerTx := 7
      ZC_MinMintConfirmations := 20
      ZC_MinMintFee := 1 * ext.CENT
      ZC_MinStakeDepth := 200
      ZC_TimeStart := 1508214600
      ZC_WrappedSerialsSupply := 0 * ext.COIN }
  let vUpgrades := consensus.vUpgrades
  let vUpgrades := setActivationHeight vUpgrades UpgradeIndex.BASE_NETWORK ext.ALWAYS_ACTIVE
  let vUpgrades := setActivationHeight vUpgrades UpgradeIndex.UPGRADE_TESTDUMMY ext.NO_ACTIVATION_HEIGHT
  let vUpgrades := setActivationHeight vUpgrades UpgradeIndex.UPGRADE_POS 5001
  let vUpgrades := setActivationHeight vUpgrades UpgradeIndex.UPGRADE_POS_V2 5010
  let vUpgrades := setActivationHeight vUpgrades UpgradeIndex.UPGRADE_ZC 5050
  let vUpgrades := setActivationHeight vUpgrades UpgradeIndex.UPGRADE_ZC_V2 5100
  let vUpgrades := setActivationHeight vUpgrades UpgradeIndex.UPGRADE_BIP65 ext.ALWAYS_ACTIVE
  let vUpgrades := setActivationHeight vUpgrades UpgradeIndex.UPGRADE_ZC_PUBLIC 6000
  let vUpgrades := setActivationHeight vUpgrades UpgradeIndex.UPGRADE_V3_4 5300
  let vUpgrades := setActivationHeight vUpgrades UpgradeIndex.UPGRADE_V4_0 5400
  let vUpgrades := setActivationHeight vUpgrades UpgradeIndex.UPGRADE_V5_DUMMY ext.NO_ACTIVATION_HEIGHT
  let vUpgrades := setActivationHash vUpgrades UpgradeIndex.UPGRADE_ZC 0x1
  let vUpgrades := setActivationHash vUpgrades UpgradeIndex.UPGRADE_ZC_V2 0x1
  let vUpgrades := setActivationHash vUpgrades UpgradeIndex.UPGRADE_BIP65 0x0
  let vUpgrades := setActivationHash vUpgrades UpgradeIndex.UPGRADE_ZC_PUBLIC 0x1
  let vUpgrades := setActivationHash vUpgrades UpgradeIndex.UPGRADE_V3_4 0x1
  let vUpgrades := setActivationHash vUpgrades UpgradeIndex.UPGRADE_V4_0 0x1
  let pchMessageStart := Function.update self.pchMessageStart 0 0x42
  let pchMessageStart := Function.update pchMessageStart 1 0xa3
  let pchMessageStart := Function.update pchMessageStart 2 0x72
  let pchMessageStart := Function.update pchMessageStart 3 0x34
  let base58Prefixes := Function.update self.base58Prefixes Base58Type.PUBKEY_ADDRESS [65]
  let base58Prefixes := Function.update base58Prefixes Base58Type.SCRIPT_ADDRESS [18]
  let base58Prefixes := Function.update base58Prefixes Base58Type.STAKING_ADDRESS [125]
  let base58Prefixes := Function.update base58Prefixes Base58Type.SECRET_KEY [127]
  let base58Prefixes := Function.update base58Prefixes Base58Type.EXT_PUBLIC_KEY [0x06, 0x4F, 0x62, 0x66]
  let base58Prefixes := Function.update base58Prefixes Base58Type.EXT_SECRET_KEY [0x06, 0x2F, 0x47, 0x5E]
  let base58Prefixes := Function.update base58Prefixes Base58Type.EXT_COIN_TYPE [0x40, 0x00, 0x00, 0x33]
  some { self with
    consensus := { consensus with vUpgrades := vUpgrades }
    pchMessageStart := pchMessageStart
    nDefaultPort := 51474
    vSeeds := self.vSeeds ++ [CDNSSeedData.mk "" "" true]
    base58Prefixes := base58Prefixes
    vFixedSeeds := ext.pnSeed6_test }

/-- Construction of a `CTestNetParams` object: base-class constructor first, then its own body. -/
def CTestNetParams.ctor (ext : Externals) (self : CChainParams) : Option CChainParams :=
  (CMainParams.ctor ext self).bind (CTestNetParams.body ext)

/-- Constructor body of `CRegTestParams` (chainparams.cpp 355-452).  The class derives from
`CTestNetParams`. -/
def CRegTestParams.body (ext : Externals) (self : CChainParams) : Option CChainParams :=
  let self := { self with networkID := Network.REGTEST, strNetworkID := "regtest" }
  let self := { self with genesis := CreateGenesisBlock ext 1600458983 1112032 0x1e0ffff0 1 (250 * ext.COIN) }
  let self := { self with consensus := { self.consensus with hashGenesisBlock := ext.GetHash self.genesis.toCBlockHeader } }
  if self.consensus.hashGenesisBlock ≠ 0x000002301ce038d4bcf0d6ef41844463b0be300888b85da7b936073d02944c99 then none
  else if self.genesis.hashMerkleRoot ≠ 0x148723258586946f5463cf095941823596a831f897260dbcbb3670529b028c5f then none
  else
  let consensus := { self.consensus with
      fPowAllowMinDifficultyBlocks := false
      powLimit := (2 ^ 256 - 1) >>> 20
      posLimitV1 := (2 ^ 256 - 1) >>> 24
      posLimitV2 := (2 ^ 256 - 1) >>> 20
      nBudgetCycleBlocks := 43200
      nBudgetFeeConfirmations := 6
      nCoinbaseMaturity := 100
      nFutureTimeDriftPoW := 7200
      nFutureTimeDriftPoS := 180
      nMasternodeCountDrift := 20
      nMaxMoneyOut := 10191520 * ext.COIN
      nPoolMaxTransactions := 3
      nProposalEstablishmentTime := 60 * 60 * 24
      nStakeMinAge := 60 * 60
      nStakeMinDepth := 600
      nTargetTimespan := 40 * 60
      nTargetTimespanV2 := 30 * 60
      nTargetSpacing := 1 * 60
      nTimeSlotLength := 15
      strSporkPubKey := "040F129DE6546FE405995329A887329BED4321325B1A73B0A257423C05C1FCFE9E40EF0678AEF59036A22C42E61DFD29DF7EFB09F56CC73CADF64E05741880E3E7"
      strSporkPubKeyOld := ""
      nTime_EnforceNewSporkKey := 0
      nTime_RejectOldSporkKey := 0
      height_last_ZC_AccumCheckpoint := 0
      height_last_ZC_WrappedSerials := 0
      height_start_InvalidUTXOsCheck := 999999999
      height_start_ZC_InvalidSerials := 0
      height_start_ZC_SerialRangeCheck := 999999999
      height_ZC_RecalcAccumulators := 999999999
      nTarianBadBlockTime := 1471401614
      nTarianBadBlockBits := 0x1c056dac
      ZC_Modulus := "25195908475657893494027183240048398571429282126204032027777137836043662020707595556264018525880784406918290641249515082189298559149176184502808489120072844992687392807287776735971418347270261896375014971824691165077613379859095700097330459748808428401797429100642458691817195118746121515172654632282216869987549182422433637259085141865462043576798423387184774447920739934236584823824281198163815010674810451660377306056201619676256133844143603833904414952634432190114657544454178424020924616515723350778707749817125772467962926386356373289912154831438167899885040445364023527381951378636564391212010397122822120720357"
      ZC_MaxPublicSpendsPerTx := 637
      ZC_MaxSpendsPerTx := 7
      ZC_MinMintConfirmations := 20
      ZC_MinMintFee := 1 * ext.CENT
      ZC_MinStakeDepth := 200
      ZC_TimeStart := 1508214600
      ZC_WrappedSerialsSupply := 0 * ext.COIN }
  let vUpgrades := consensus.vUpgrades
  let vUpgrades := setActivationHeight vUpgrades UpgradeIndex.BASE_NETWORK ext.ALWAYS_ACTIVE
  let vUpgrades := setActivationHeight vUpgrades UpgradeIndex.UPGRADE_TESTDUMMY ext.NO_ACTIVATION_HEIGHT
  let vUpgrades := setActivationHeight vUpgrades UpgradeIndex.UPGRADE_POS 5001
  let vUpgrades := setActivationHeight vUpgrades UpgradeIndex.UPGRADE_POS_V2 5010
  let vUpgrades := setActivationHeight vUpgrades UpgradeIndex.UPGRADE_ZC 5050
  let vUpgrades := setActivationHeight vUpgrades UpgradeIndex.UPGRADE_ZC_V2 5100
  let vUpgrades := setActivationHeight vUpgrades UpgradeIndex.UPGRADE_BIP65 ext.ALWAYS_ACTIVE
  let vUpgrades := setActivationHeight vUpgrades UpgradeIndex.UPGRADE_ZC_PUBLIC 6000
  let vUpgrades := setActivationHeight vUpgrades UpgradeIndex.UPGRADE_V3_4 5300
  let vUpgrades := setActivationHeight vUpgrades UpgradeIndex.UPGRADE_V4_0 5400
  let vUpgrades := setActivationHeight vUpgrades UpgradeIndex.UPGRADE_V5_DUMMY ext.NO_ACTIVATION_HEIGHT
  let vUpgrades := setActivationHash vUpgrades UpgradeIndex.UPGRADE_ZC 0x1
  let vUpgrades := setActivationHash vUpgrades UpgradeIndex.UPGRADE_ZC_V2 0x1
  let vUpgrades := setActivationHash vUpgrades UpgradeIndex.UPGRADE_BIP65 0x0
  let vUpgrades := setActivationHash vUpgrades UpgradeIndex.UPGRADE_ZC_PUBLIC 0x1
  let vUpgrades := setActivationHash vUpgrades UpgradeIndex.UPGRADE_V3_4 0x1
  let vUpgrades := setActivationHash vUpgrades UpgradeIndex.UPGRADE_V4_0 0x1
  let pchMessageStart := Function.update self.pchMessageStart 0 0x42
  let pchMessageStart := Function.update pchMessageStart 1 0xa3
  let pchMessageStart := Function.update pchMessageStart 2 0x72
  let pchMessageStart := Function.update pchMessageStart 3 0x34
  some { self with
    consensus := { consensus with vUpgrades := vUpgrades }
    pchMessageStart := pchMessageStart
    nDefaultPort := 51476
    vFixedSeeds := []
    vSeeds := [] }

/-- Construction of a `CRegTestParams` object: main body, testnet body, then its own body. -/
def CRegTestParams.ctor (ext : Externals) (self : CChainParams) : Option CChainParams :=
  (CTestNetParams.ctor ext self).bind (CRegTestParams.body ext)

/-- File-scope state of chainparams.cpp: the three static parameter objects and the pointer
`pCurrentParams`, which is null or points at one of them. -/
structure Globals where
  mainParams : CChainParams
  testNetParams : CChainParams
  regTestParams : CChainParams
  pCurrentParams : Option Network := none

/-- Static construction of `mainParams`, `testNetParams`, `regTestParams` (chainparams.cpp 218,
347, 465) and of the null `pCurrentParams` (467); `none` when a constructor assertion aborts. -/
def staticInit (ext : Externals) : Option Globals :=
  (CMainParams.ctor ext ext.base).bind fun m =>
  (CTestNetParams.ctor ext ext.base).bind fun t =>
  (CRegTestParams.ctor ext ext.base).bind fun r =>
  some { mainParams := m, testNetParams := t, regTestParams := r, pCurrentParams := none }

/-- The function `Params(network)` (chainparams.cpp 475-488); the default branch asserts false. -/
def Params (g : Globals) (network : Network) : Option CChainParams :=
  match network with
  | Network.MAIN => some g.mainParams
  | Network.TESTNET => some g.testNetParams
  | Network.REGTEST => some g.regTestParams
  | Network.MAX_NETWORK_TYPES => none

/-- The argument-less `Params()` (chainparams.cpp 469-473): asserts the pointer is set. -/
def Params.current (g : Globals) : Option CChainParams :=
  g.pCurrentParams.bind (Params g)

/-- The function `SelectParams(network)` (chainparams.cpp 490-494); `SelectBaseParams` acts on
state of chainparamsbase, outside this file. -/
def SelectParams (g : Globals) (network : Network) : Option Globals :=
  (Params g network).map fun _ => { g with pCurrentParams := some network }

/-- The outcome of `SelectParamsFromCommandLine()` (chainparams.cpp 496-504): the returned flag
and the file-scope state; `network` is what `NetworkIdFromCommandLine()` (chainparamsbase, not
part of `src/`) returned. -/
def SelectParamsFromCommandLine (g : Globals) (network : Network) : Option (Bool × Globals) :=
  if network = Network.MAX_NETWORK_TYPES then some (false, g)
  else (SelectParams g network).map fun g1 => (true, g1)

/-- The member `CRegTestParams::UpdateNetworkUpgradeParameters` (chainparams.cpp 459-463); the
assertion compares enumerator values. -/
def CRegTestParams.UpdateNetworkUpgradeParameters (ext : Externals) (self : CChainParams)
    (idx : UpgradeIndex) (nActivationHeight : Int) : Option CChainParams :=
  if ext.upgradeIndexValue idx > ext.upgradeIndexValue UpgradeIndex.BASE_NETWORK ∧
      ext.upgradeIndexValue idx < ext.MAX_NETWORK_UPGRADES then
    some { self with consensus := { self.consensus with
      vUpgrades := setActivationHeight self.consensus.vUpgrades idx nActivationHeight } }
  else none

/-- The free function `UpdateNetworkUpgradeParameters` (chainparams.cpp 506-509): it acts on
`regTestParams`. -/
def UpdateNetworkUpgradeParameters (ext : Externals) (g : Globals) (idx : UpgradeIndex)
    (nActivationHeight : Int) : Option Globals :=
  (CRegTestParams.UpdateNetworkUpgradeParameters ext g.regTestParams idx nActivationHeight).map
    fun r => { g with regTestParams := r }

/-- The state-changing operations that chainparams.cpp exposes. -/
inductive ParamsOp
  | select (network : Network)
  | selectFromCommandLine (network : Network)
  | update (idx : UpgradeIndex) (nActivationHeight : Int)
  deriving DecidableEq, Repr

/-- One operation on the file-scope state; `none` when an assertion aborts. -/
def ParamsOp.run (ext : Externals) (g : Globals) : ParamsOp → Option Globals
  | ParamsOp.select network => SelectParams g network
  | ParamsOp.selectFromCommandLine network =>
    (SelectParamsFromCommandLine g network).map fun r => r.2
  | ParamsOp.update idx nActivationHeight =>
    UpdateNetworkUpgradeParameters ext g idx nActivationHeight

/-- A sequence of operations, run in order. -/
def runOps (ext : Externals) : Globals → List ParamsOp → Option Globals
  | g, [] => some g
  | g, op :: rest => (op.run ext g).bind fun g1 => runOps ext g1 rest

/-- The parameter object `p` with its upgrade table replaced by `v`. -/
def withUpgrades (p : CChainParams) (v : UpgradeIndex → NetworkUpgrade) : CChainParams :=
  { p with consensus := { p.consensus with vUpgrades := v } }

/-! ## NetworkUpgradeSchedule (spec 4.1) -/

/-- Modelled from the spec: `ActivationHeight(idx)`, the lookup in the activation table; the
implementation (consensus/upgrades) is not under `src/`. -/
def ActivationHeight (params : Consensus.Params) (idx : UpgradeIndex) : Int :=
  (params.vUpgrades idx).nActivationHeight

/-- Modelled from the spec: `IsActive(idx, height)`; the implementation (consensus/upgrades) is
not under `src/`.  Spec 4.1 and glossary: the "never" sentinel yields false, the "always active"
sentinel yields true for every height at or above genesis (height 0), and any other activation
height is "the block height at and after which" the upgrade takes effect. -/
def IsActive (ext : Externals) (params : Consensus.Params) (idx : UpgradeIndex) (height : Int) :
    Bool :=
  if ActivationHeight params idx = ext.NO_ACTIVATION_HEIGHT then false
  else if ActivationHeight params idx = ext.ALWAYS_ACTIVE then decide (0 ≤ height)
  else decide (ActivationHeight params idx ≤ height)

/-- A height that is neither of the two sentinel values. -/
def Externals.isOrdinaryHeight (ext : Externals) (h : Int) : Prop :=
  h ≠ ext.NO_ACTIVATION_HEIGHT ∧ h ≠ ext.ALWAYS_ACTIVE

/-! ## BlockSignatureVerifier (spec 4.2) -/

/-- A private key (`CKey`), as bytes. -/
abbrev CKey := List Nat

/-- A public key (`CPubKey`), as bytes. -/
abbrev CPubKey := List Nat

/-- Modelled from the spec: what the block-signature operations consume (key.h, keystore.h and
the script solver are not under `src/`): the header hash, the coinstake output carried by the
transaction list when there is one (spec 6), the recovery of a public key from an output script,
and the signature primitives with their failure modes. -/
structure BlockSigEnv where
  GetHash : CBlockHeader → uint256
  coinstakeOutput : List CMutableTransaction → Option CTxOut
  pubKeyOfScript : CScript → Option CPubKey
  GetPubKey : CKey → CPubKey
  Sign : CKey → uint256 → Option (List Nat)
  Verify : CPubKey → uint256 → List Nat → Bool

/-- Modelled from the spec: `CheckBlockSignature(block)` (declared in blocksignature.h 14, the
body is not under `src/`): "for a block with no coinstake output (a proof-of-work block), a
signature field must be empty and the check passes trivially. For a proof-of-stake block, recover
the expected public key from the coinstake output script, then cryptographically verify the
attached signature against the block's header hash using that key. Any parse failure, missing
signature, or cryptographic mismatch returns false." -/
def CheckBlockSignature (env : BlockSigEnv) (block : CBlock) : Bool :=
  match env.coinstakeOutput block.vtx with
  | none => block.vchBlockSig.isEmpty
  | some txout =>
    match env.pubKeyOfScript txout.scriptPubKey with
    | none => false
    | some pubkey =>
      if block.vchBlockSig.isEmpty then false
      else env.Verify pubkey (env.GetHash block.toCBlockHeader) block.vchBlockSig

/-! ## ZerocoinSpendValidator (spec 4.3) -/

/-- Modelled from the spec: the policy rejections listed in spec 7 (feature not yet activated,
version mismatch, spend-count limit exceeded, insufficient confirmation depth). -/
inductive PolicyReason
  | notYetActivated
  | versionMismatch
  | tooManySpends
  | insufficientDepth
  deriving DecidableEq, Repr

/-- Modelled from the spec: the error kinds of spec 7 that a spend check can raise. -/
inductive SpendError
  | StructuralError
  | PolicyError (reason : PolicyReason)
  | DoubleSpendError
  | AccumulatorMismatchError
  deriving DecidableEq, Repr

/-- Modelled from the spec: `CoinSpendProof` (spec 3). -/
structure CoinSpendProof where
  version : Int
  denomination : Int
  serial : Nat
  accumulatorWitness : List Nat
  isPublicSpend : Bool
  commitment : uint256
  deriving DecidableEq, Repr

/-- Modelled from the spec: the pre-parsed transaction as the spend checks see it, the spend
proofs it carries and whether it is used to satisfy a staking requirement. -/
structure CTransaction where
  spends : List CoinSpendProof
  isCoinStake : Bool
  deriving DecidableEq, Repr

/-- Modelled from the spec: `SerialNumberRecord` (spec 3). -/
structure SerialNumberRecord where
  serial : Nat
  height : Int
  deriving DecidableEq, Repr

/-- Modelled from the spec: the chain state the contextual checks consult (spec 6): the persisted
serial-number index, the height of the chain tip, the proof version mandated at each height, the
confirmations a spent mint has accrued at a height, and the accumulator membership verdict. -/
structure ZerocoinChain where
  serialIndex : List SerialNumberRecord
  tipHeight : Int
  mandatedVersion : Int → Int
  mintConfirmations : CoinSpendProof → Int → Int
  verifyMembership : CoinSpendProof → Bool

/-- Modelled from the spec: the "exists" operation of the serial-number index (spec 6). -/
def ZerocoinChain.hasSerial (chain : ZerocoinChain) (serial : Nat) : Bool :=
  chain.serialIndex.any fun r => decide (r.serial = serial)

/-- Modelled from the spec: the "insert-if-absent" operation of the serial-number index (spec 6),
append-only and without effect on a recorded serial (spec 3). -/
def ZerocoinChain.recordSerial (chain : ZerocoinChain) (serial : Nat) (height : Int) :
    ZerocoinChain :=
  if chain.hasSerial serial then chain
  else { chain with serialIndex := chain.serialIndex ++ [{ serial := serial, height := height }] }

/-- Modelled from the spec: `CheckPublicCoinSpendEnforced(height, isPublicSpend)` (declared in
zerocoin_verify.h 18, the body is not under `src/`): "a public spend is permitted only once the
public-spend upgrade is active at height; else reject". -/
def CheckPublicCoinSpendEnforced (ext : Externals) (params : Consensus.Params) (blockHeight : Int)
    (isPublicSpend : Bool) : Bool :=
  if isPublicSpend then IsActive ext params UpgradeIndex.UPGRADE_ZC_PUBLIC blockHeight else true

/-- Modelled from the spec: `CurrentPublicCoinSpendVersion()` (declared in zerocoin_verify.h 19):
"the version mandated at the current height". -/
def CurrentPublicCoinSpendVersion (chain : ZerocoinChain) : Int :=
  chain.mandatedVersion chain.tipHeight

/-- Modelled from the spec: `CheckPublicCoinSpendVersion(version)` (declared in zerocoin_verify.h
20): "the proof version must match the version mandated at the current height". -/
def CheckPublicCoinSpendVersion (chain : ZerocoinChain) (version : Int) : Bool :=
  decide (version = CurrentPublicCoinSpendVersion chain)

/-- Number of private (non-public) spends of a transaction. -/
def CTransaction.privateSpends (tx : CTransaction) : Nat :=
  (tx.spends.filter fun s => !s.isPublicSpend).length

/-- Number of public spends of a transaction. -/
def CTransaction.publicSpends (tx : CTransaction) : Nat :=
  (tx.spends.filter fun s => s.isPublicSpend).length

/-- Modelled from the spec: the cardinality check (spec 4.3, phase 2, item 3): "private spends
per transaction ≤ configured maximum; public spends per transaction ≤ its own (looser) configured
maximum". -/
def CheckSpendCount (params : Consensus.Params) (tx : CTransaction) : Bool :=
  decide ((tx.privateSpends : Int) ≤ params.ZC_MaxSpendsPerTx) &&
  decide ((tx.publicSpends : Int) ≤ params.ZC_MaxPublicSpendsPerTx)

/-- Modelled from the spec: the confirmation-depth check (spec 4.3, phase 2, item 4): "at least
the configured minimum confirmations"; "if the spend is being used to satisfy a staking
requirement, a deeper minimum stake-depth applies instead". -/
def CheckMintDepth (params : Consensus.Params) (chain : ZerocoinChain) (tx : CTransaction)
    (spend : CoinSpendProof) (nHeight : Int) : Bool :=
  decide ((if tx.isCoinStake then params.ZC_MinStakeDepth else params.ZC_MinMintConfirmations) ≤
    chain.mintConfirmations spend nHeight)

/-- Modelled from the spec: items 1-4 of the contextual phase (spec 4.3), in the order listed,
each rejecting with the policy error spec 7 names for it. -/
def ContextualPolicyChecks (ext : Externals) (params : Consensus.Params) (chain : ZerocoinChain)
    (tx : CTransaction) (spend : CoinSpendProof) (nHeight : Int) : Except SpendError Unit :=
  if !CheckPublicCoinSpendEnforced ext params nHeight spend.isPublicSpend then
    Except.error (SpendError.PolicyError PolicyReason.notYetActivated)
  else if !CheckPublicCoinSpendVersion chain spend.version then
    Except.error (SpendError.PolicyError PolicyReason.versionMismatch)
  else if !CheckSpendCount params tx then
    Except.error (SpendError.PolicyError PolicyReason.tooManySpends)
  else if !CheckMintDepth params chain tx spend nHeight then
    Except.error (SpendError.PolicyError PolicyReason.insufficientDepth)
  else Except.ok ()

/-- Modelled from the spec: `ContextualCheckZerocoinSpend(tx, spend, nHeight, hashBlock)`
(declared in zerocoin_verify.h 21, the body is not under `src/`): items 1-6 of the contextual
phase (spec 4.3) in the order listed; `Except.ok ()` is the accepting verdict. -/
def ContextualCheckZerocoinSpend (ext : Externals) (params : Consensus.Params)
    (chain : ZerocoinChain) (tx : CTransaction) (spend : CoinSpendProof) (nHeight : Int)
    (_hashBlock : uint256) : Except SpendError Unit :=
  match ContextualPolicyChecks ext params chain tx spend nHeight with
  | Except.error e => Except.error e
  | Except.ok () =>
    if chain.hasSerial spend.serial then Except.error SpendError.DoubleSpendError
    else if !chain.verifyMembership spend then Except.error SpendError.AccumulatorMismatchError
    else Except.ok ()

/-- Modelled from the spec: acceptance of a spend into history, the contextual check followed by
the recording of the serial number at the height of the containing block (spec 3,
SerialNumberRecord). -/
def acceptSpend (ext : Externals) (params : Consensus.Params) (chain : ZerocoinChain)
    (tx : CTransaction) (spend : CoinSpendProof) (nHeight : Int) (hashBlock : uint256) :
    Except SpendError ZerocoinChain :=
  match ContextualCheckZerocoinSpend ext params chain tx spend nHeight hashBlock with
  | Except.error e => Except.error e
  | Except.ok () => Except.ok (chain.recordSerial spend.serial nHeight)

/-- Modelled from the spec: the accepted history, a replay of candidate spends from a chain state
in which each accepted spend is recorded and each rejected one is dropped. -/
def acceptAll (ext : Externals) (params : Consensus.Params) (chain : ZerocoinChain) :
    List (CTransaction × CoinSpendProof × Int × uint256) → ZerocoinChain
  | [] => chain
  | (tx, spend, nHeight, hashBlock) :: rest =>
    match acceptSpend ext params chain tx spend nHeight hashBlock with
    | Except.error _ => acceptAll ext params chain rest
    | Except.ok chain1 => acceptAll ext params chain1 rest

/-- Modelled from the spec: the "fake-serial-attack range", a fixed historical height window
carried as configuration values whose bounds the spec leaves open (spec 3, spec 9). -/
structure FakeSerialWindow where
  first : Int
  last : Int
  deriving DecidableEq, Repr

/-- Modelled from the spec: `isBlockBetweenFakeSerialAttackRange(height)` (declared in
zerocoin_verify.h 16, the body is not under `src/`): whether the height lies inside the
window. -/
def isBlockBetweenFakeSerialAttackRange (window : FakeSerialWindow) (nHeight : Int) : Bool :=
  decide (window.first ≤ nHeight) && decide (nHeight ≤ window.last)

/-- Modelled from the spec: `ContextualCheckZerocoinSpendNoSerialCheck(tx, spend, nHeight,
hashBlock)` (declared in zerocoin_verify.h 22, the body is not under `src/`): the relaxed variant
"intended for trusted re-validation of already-accepted history", which leaves out the
double-spend check (item 5), except that "spends validated within that window must use the
heightened-scrutiny path (full serial check)" (item 7). -/
def ContextualCheckZerocoinSpendNoSerialCheck (ext : Externals) (params : Consensus.Params)
    (window : FakeSerialWindow) (chain : ZerocoinChain) (tx : CTransaction)
    (spend : CoinSpendProof) (nHeight : Int) (hashBlock : uint256) : Except SpendError Unit :=
  if isBlockBetweenFakeSerialAttackRange window nHeight then
    ContextualCheckZerocoinSpend ext params chain tx spend nHeight hashBlock
  else
    match ContextualPolicyChecks ext params chain tx spend nHeight with
    | Except.error e => Except.error e
    | Except.ok () =>
      if !chain.verifyMembership spend then Except.error SpendError.AccumulatorMismatchError
      else Except.ok ()

/-! ## Difficulty-bits exemption (spec 4.1) -/

/-- Modelled from the spec: the "specific historical (time,bits) pair exempted from standard
difficulty validation" (spec 3); the validation code that reads `nTarianBadBlockTime` and
`nTarianBadBlockBits` is not under `src/`. -/
def isBadBlockExemption (params : Consensus.Params) (block : CBlockHeader) : Bool :=
  decide ((block.nTime : Int) = params.nTarianBadBlockTime) &&
  decide ((block.nBits : Int) = params.nTarianBadBlockBits)

/-- Modelled from the spec: validation of proof-of-work difficulty bits, which "must special-case
exactly that one historical block and apply standard rules to every other block" (spec 4.1);
`standardRule` is the standard validation, which is not under `src/`. -/
def CheckDifficultyBits (params : Consensus.Params) (standardRule : CBlockHeader → Bool)
    (block : CBlockHeader) : Bool :=
  if isBadBlockExemption params block then true else standardRule block

/-! ## SupplyReconciler (spec 4.3) -/

/-- Modelled from the spec: a block as the supply replay sees it, the value delta of its mints
and spends, its zerocoin-specific delta, whether its replay reconciles (a block that does not
raises the SupplyReconciliationError of spec 7), and the money-supply figure on record for it. -/
structure SupplyBlock where
  nValueDelta : CAmount
  nZerocoinDelta : CAmount
  reconciles : Bool
  nMoneySupply : CAmount
  deriving DecidableEq, Repr

/-- Modelled from the spec: the replay loop, "accumulating a running money-supply total from
mint/spend value deltas; skipZerocoin omits zerocoin-specific deltas"; a block that does not
reconcile "aborts the replay" with a failing verdict, the figures rewritten so far staying. -/
def replaySupply (fSkipZtarn : Bool) : CAmount → List SupplyBlock → Bool × List SupplyBlock
  | _, [] => (true, [])
  | total, b :: rest =>
    if b.reconciles then
      let total1 := total + b.nValueDelta + (if fSkipZtarn then 0 else b.nZerocoinDelta)
      let r := replaySupply fSkipZtarn total1 rest
      (r.1, { b with nMoneySupply := total1 } :: r.2)
    else (false, b :: rest)

/-- The figure on record for the last block of a chain prefix, 0 before genesis. -/
def supplyOnRecord (below : List SupplyBlock) : CAmount :=
  match below.getLast? with
  | some b => b.nMoneySupply
  | none => 0

/-- Modelled from the spec: `RecalculateTARNSupply(nHeightStart, fSkipZtarn)` (declared in
zerocoin_verify.h 23, the body is not under `src/`): it "replays blocks from startHeight
forward", starting from the figure on record below the start height, and returns the success
verdict together with the chain carrying the recomputed figures.  The chain is the list of its
blocks, genesis first; a negative start height is read as 0. -/
def RecalculateTARNSupply (chain : List SupplyBlock) (nHeightStart : Int) (fSkipZtarn : Bool) :
    Bool × List SupplyBlock :=
  let below := chain.take nHeightStart.toNat
  let r := replaySupply fSkipZtarn (supplyOnRecord below) (chain.drop nHeightStart.toNat)
  (r.1, below ++ r.2)

/-! ## Result values (pairresult.h) -/

/-- The class `PairResult` (pairresult.h 9-17): a verdict and a pointer to a reason string.  The
pointer is `none` when null and `some s` when it points at the string `s`; the member
initializer `status = nullptr` is the default of the field. -/
structure PairResult where
  result : Bool
  status : Option String := none
  deriving DecidableEq, Repr

/-- The constructor `PairResult(bool res)` (pairresult.h 12). -/
def PairResult.ofResult (res : Bool) : PairResult :=
  { result := res }

/-- The constructor `PairResult(bool res, std::string* statusStr)` (pairresult.h 13). -/
def PairResult.ofResultStatus (res : Bool) (statusStr : Option String) : PairResult :=
  { result := res, status := statusStr }

/-! ## Checkpoint data (chainparams.cpp 67-95) -/

/-- The aggregate `Checkpoints::CCheckpointData`, its members in the order of the initializers:
the checkpoint map, the timestamp of the last checkpoint block, the number of transactions up to
it, and the estimated number of transactions per day after it. -/
structure CCheckpointData where
  mapCheckpoints : List (Int × uint256)
  nTimeLastCheckpoint : Int
  nTransactionsLastCheckpoint : Int
  fTransactionsPerDay : Int
  deriving DecidableEq, Repr

/-- The map `mapCheckpoints` of the main network (chainparams.cpp 67-69), as its list of
(height, hash) entries. -/
def mapCheckpoints : List (Int × uint256) :=
  [(0, 0x000002301ce038d4bcf0d6ef41844463b0be300888b85da7b936073d02944c99)]

/-- The checkpoint data `data` of the main network (chainparams.cpp 71-75). -/
def data : CCheckpointData :=
  { mapCheckpoints := mapCheckpoints, nTimeLastCheckpoint := 1600458983,
    nTransactionsLastCheckpoint := 0, fTransactionsPerDay := 3000 }

/-- The map `mapCheckpointsTestnet` (chainparams.cpp 77-79). -/
def mapCheckpointsTestnet : List (Int × uint256) :=
  [(0, 0x001)]

/-- The checkpoint data `dataTestnet` (chainparams.cpp 81-85). -/
def dataTestnet : CCheckpointData :=
  { mapCheckpoints := mapCheckpointsTestnet, nTimeLastCheckpoint := 1600458983,
    nTransactionsLastCheckpoint := 0, fTransactionsPerDay := 250 }

/-- The map `mapCheckpointsRegtest` (chainparams.cpp 87-89). -/
def mapCheckpointsRegtest : List (Int × uint256) :=
  [(0, 0x001)]

/-- The checkpoint data `dataRegtest` (chainparams.cpp 91-95). -/
def dataRegtest : CCheckpointData :=
  { mapCheckpoints := mapCheckpointsRegtest, nTimeLastCheckpoint := 1600458983,
    nTransactionsLastCheckpoint := 0, fTransactionsPerDay := 100 }

/-- The member `CMainParams::Checkpoints()` (chainparams.cpp 212-215). -/
def CMainParams.Checkpoints : CCheckpointData := data

/-- The member `CTestNetParams::Checkpoints()` (chainparams.cpp 342-345). -/
def CTestNetParams.Checkpoints : CCheckpointData := dataTestnet

/-- The member `CRegTestParams::Checkpoints()` (chainparams.cpp 454-457). -/
def CRegTestParams.Checkpoints : CCheckpointData := dataRegtest

/-- The call `Params(network).Checkpoints()`: the override of the class of the static object that
`Params(network)` returns. -/
def Checkpoints (network : Network) : Option CCheckpointData :=
  match network with
  | Network.MAIN => some CMainParams.Checkpoints
  | Network.TESTNET => some CTestNetParams.Checkpoints
  | Network.REGTEST => some CRegTestParams.Checkpoints
  | Network.MAX_NETWORK_TYPES => none

/-! ## Base58 address text -/

/-- Modelled from the spec: the Base58 alphabet behind the "address-version byte prefixes" of
spec 6.  The encoder (base58.cpp) is not under `src/` and the spec gives no algorithm; this is the
alphabet of the Bitcoin Base58 encoding that the comment at chainparams.cpp 198 refers to. -/
def pszBase58 : String := "123456789ABCDEFGHJKLMNPQRSTUVWXYZabcdefghijkmnopqrstuvwxyz"

/-- The number that a byte string spells, most significant byte first. -/
def bytesToNat (bytes : List Nat) : Nat :=
  Nat.ofDigits 256 bytes.reverse

/-- Modelled from the spec: `EncodeBase58` for the "address-version byte prefixes" of spec 6.
The encoder (base58.cpp) is not under `src/` and the spec gives no algorithm; this is the Bitcoin
Base58 encoding that the comment at chainparams.cpp 198 refers to: one character 1 per leading
zero byte, then the base-58 digits of the number the bytes spell, most significant first, each
written with the alphabet `pszBase58`. -/
def EncodeBase58 (bytes : List Nat) : String :=
  let zeroes := (bytes.takeWhile fun b => decide (b = 0)).length
  let digits := (Nat.digits 58 (bytesToNat bytes)).reverse
  String.mk (List.replicate zeroes '1' ++ digits.map fun d => pszBase58.toList.getD d '1')

/-! ## Concrete instances used to exercise the theorems -/

/-- An instance of the externals: 10^8 base units per coin, sentinels 0 and -1, hash functions
that return the pinned genesis values, no seeds, an all-default base object, and the upgrade
enumerators numbered 0 to 10 in the order in which chainparams.cpp assigns their entries. -/
def sampleExternals : Externals where
  COIN := 100000000
  CENT := 1000000
  ALWAYS_ACTIVE := 0
  NO_ACTIVATION_HEIGHT := -1
  GetHash := fun _ => 0x000002301ce038d4bcf0d6ef41844463b0be300888b85da7b936073d02944c99
  BlockMerkleRoot := fun _ => 0x148723258586946f5463cf095941823596a831f897260dbcbb3670529b028c5f
  pnSeed6_main := []
  pnSeed6_test := []
  base := {}
  upgradeIndexValue := fun idx =>
    match idx with
    | UpgradeIndex.BASE_NETWORK => 0
    | UpgradeIndex.UPGRADE_TESTDUMMY => 1
    | UpgradeIndex.UPGRADE_POS => 2
    | UpgradeIndex.UPGRADE_POS_V2 => 3
    | UpgradeIndex.UPGRADE_ZC => 4
    | UpgradeIndex.UPGRADE_ZC_V2 => 5
    | UpgradeIndex.UPGRADE_BIP65 => 6
    | UpgradeIndex.UPGRADE_ZC_PUBLIC => 7
    | UpgradeIndex.UPGRADE_V3_4 => 8
    | UpgradeIndex.UPGRADE_V4_0 => 9
    | UpgradeIndex.UPGRADE_V5_DUMMY => 10
  MAX_NETWORK_UPGRADES := 11

/-- The file-scope state that `staticInit` builds from `sampleExternals`. -/
def sampleGlobals : Globals :=
  match staticInit sampleExternals with
  | some g => g
  | none => { mainParams := {}, testNetParams := {}, regTestParams := {} }

/-- A toy block-signature environment: the public key of a key is the key with every byte
incremented, a signature is the hash followed by the public key, the coinstake output is the
second output of the second transaction, and a pay-to-public-key script yields its key. -/
def sampleSigEnv : BlockSigEnv where
  GetHash := fun h => h.nVersion.toNat + h.hashPrevBlock + h.hashMerkleRoot + h.nTime + h.nBits + h.nNonce
  coinstakeOutput := fun vtx => (vtx.get? 1).bind fun tx => tx.vout.get? 1
  pubKeyOfScript := fun s =>
    match s with
    | [ScriptItem.bytes b, ScriptItem.OP_CHECKSIG] => some b
    | _ => none
  GetPubKey := fun key => key.map (· + 1)
  Sign := fun key hash => some (hash :: key.map (· + 1))
  Verify := fun pubkey hash sig => decide (sig = hash :: pubkey)

/-- A proof-of-stake block for `sampleSigEnv` whose coinstake output pays to public key [8, 9]. -/
def sampleStakeBlock : CBlock where
  nVersion := 4
  nTime := 1600460000
  vtx := [{ nVersion := 1, vin := [{}], vout := [{}] },
          { nVersion := 1, vin := [{}],
            vout := [{}, { nValue := 5, scriptPubKey := [ScriptItem.bytes [8, 9], ScriptItem.OP_CHECKSIG] }] }]

/-- A private spend proof of version 3 with serial 77. -/
def sampleSpend : CoinSpendProof where
  version := 3
  denomination := 10
  serial := 77
  accumulatorWitness := []
  isPublicSpend := false
  commitment := 0

/-- A chain state with an empty serial index that mandates version 3, sees 30 confirmations on
every mint and accepts every membership witness. -/
def sampleChain : ZerocoinChain where
  serialIndex := []
  tipHeight := 5500
  mandatedVersion := fun _ => 3
  mintConfirmations := fun _ _ => 30
  verifyMembership := fun _ => true

/-- A transaction carrying the single spend `sampleSpend`. -/
def sampleTx : CTransaction where
  spends := [sampleSpend]
  isCoinStake := false

/-- The output values of a block, per transaction. -/
def outputValues (block : CBlock) : List (List CAmount) :=
  block.vtx.map fun tx => tx.vout.map CTxOut.nValue

/-- A window covering heights 100 to 200. -/
def sampleWindow : FakeSerialWindow where
  first := 100
  last := 200

/-- The bad-block header: time 1471401614 and bits 0x1c056dac. -/
def sampleBadBlock : CBlockHeader where
  nTime := 1471401614
  nBits := 0x1c056dac

/-- A chain of three blocks with stale figures on record. -/
def sampleSupplyChain : List SupplyBlock :=
  [{ nValueDelta := 250, nZerocoinDelta := 0, reconciles := true, nMoneySupply := 250 },
   { nValueDelta := 10, nZerocoinDelta := 3, reconciles := true, nMoneySupply := 0 },
   { nValueDelta := 20, nZerocoinDelta := -1, reconciles := true, nMoneySupply := 7 }]

/-- The file-scope state after `SelectParams(REGTEST)` on `sampleGlobals`. -/
def sampleRegtestSelected : Globals :=
  { sampleGlobals with pCurrentParams := some Network.REGTEST }

/-- The file-scope state after selecting the main network on `sampleGlobals`, updating the
proof-of-stake activation height and selecting the main network again. -/
def sampleAfterOps : Globals :=
  match runOps sampleExternals sampleGlobals
    [ParamsOp.select Network.MAIN, ParamsOp.update UpgradeIndex.UPGRADE_POS 1,
     ParamsOp.select Network.MAIN] with
  | some g => g
  | none => sampleGlobals

/-- An instance of the externals whose merkle root reads the transaction list only: the number
of transactions plus the value of the first output of the first transaction. -/
def sampleExternalsMerkle : Externals :=
  { sampleExternals with
    BlockMerkleRoot := fun block =>
      block.vtx.length + ((block.vtx.head?.bind fun tx => tx.vout.head?).map
        fun o => o.nValue.toNat).getD 0 }

/-- A 20-byte key hash. -/
def sampleKeyHash : List Nat :=
  [0, 1, 2, 3, 4, 5, 6, 7, 8, 9, 10, 11, 12, 13, 14, 15, 16, 17, 18, 19]

/-- A 4-byte checksum. -/
def sampleChecksum : List Nat :=
  [255, 0, 128, 7]

/-! ## Facts about the constructed parameter objects -/

/-- What the body of `CMainParams` leaves in the fields used below, whatever the object held. -/
theorem CMainParams_ctor_fields (ext : Externals) (self p : CChainParams)
    (h : CMainParams.ctor ext self = some p) :
    p.consensus.ZC_MaxSpendsPerTx = 7 ∧
    ActivationHeight p.consensus UpgradeIndex.UPGRADE_ZC_PUBLIC = 6000 ∧
    p.genesis = CreateGenesisBlock ext 1600458983 1112032 0x1e0ffff0 1 (250 * ext.COIN) := by
  simp only [CMainParams.ctor] at h
  split_ifs at h
  cases h
  refine ⟨rfl, ?_, rfl⟩
  simp [ActivationHeight, setActivationHeight, setActivationHash, Function.update]

/-- What the body of `CTestNetParams` leaves in the fields used below. -/
theorem CTestNetParams_body_fields (ext : Externals) (self p : CChainParams)
    (h : CTestNetParams.body ext self = some p) :
    p.consensus.ZC_MaxSpendsPerTx = 7 ∧
    ActivationHeight p.consensus UpgradeIndex.UPGRADE_ZC_PUBLIC = 6000 ∧
    p.genesis = CreateGenesisBlock ext 1600458983 1112032 0x1e0ffff0 1 (250 * ext.COIN) := by
  simp only [CTestNetParams.body] at h
  split_ifs at h
  cases h
  refine ⟨rfl, ?_, rfl⟩
  simp [ActivationHeight, setActivationHeight, setActivationHash, Function.update]

/-- What the body of `CRegTestParams` leaves in the fields used below. -/
theorem CRegTestParams_body_fields (ext : Externals) (self p : CChainParams)
    (h : CRegTestParams.body ext self = some p) :
    p.consensus.ZC_MaxSpendsPerTx = 7 ∧
    ActivationHeight p.consensus UpgradeIndex.UPGRADE_ZC_PUBLIC = 6000 ∧
    p.genesis = CreateGenesisBlock ext 1600458983 1112032 0x1e0ffff0 1 (250 * ext.COIN) := by
  simp only [CRegTestParams.body] at h
  split_ifs at h
  cases h
  refine ⟨rfl, ?_, rfl⟩
  simp [ActivationHeight, setActivationHeight, setActivationHash, Function.update]

/-- The three facts hold of the parameter object of every network once static construction has
succeeded. -/
theorem Params_fields (ext : Externals) (g : Globals) (net : Network) (p : CChainParams)
    (hinit : staticInit ext = some g) (hnet : Params g net = some p) :
    p.consensus.ZC_MaxSpendsPerTx = 7 ∧
    ActivationHeight p.consensus UpgradeIndex.UPGRADE_ZC_PUBLIC = 6000 ∧
    p.genesis = CreateGenesisBlock ext 1600458983 1112032 0x1e0ffff0 1 (250 * ext.COIN) := by
  unfold staticInit at hinit
  cases hm : CMainParams.ctor ext ext.base with
  | none => simp [hm] at hinit
  | some m =>
    cases ht : CTestNetParams.ctor ext ext.base with
    | none => simp [hm, ht] at hinit
    | some t =>
      cases hr : CRegTestParams.ctor ext ext.base with
      | none => simp [hm, ht, hr] at hinit
      | some r =>
        simp only [hm, ht, hr, Option.some_bind, Option.some.injEq] at hinit
        subst hinit
        cases net with
        | MAIN =>
          simp only [Params, Option.some.injEq] at hnet
          subst hnet
          exact CMainParams_ctor_fields ext _ _ hm
        | TESTNET =>
          simp only [Params, Option.some.injEq] at hnet
          subst hnet
          unfold CTestNetParams.ctor at ht
          cases hm2 : CMainParams.ctor ext ext.base with
          | none => simp [hm2] at ht
          | some m2 =>
            rw [hm2] at ht
            exact CTestNetParams_body_fields ext _ _ ht
        | REGTEST =>
          simp only [Params, Option.some.injEq] at hnet
          subst hnet
          unfold CRegTestParams.ctor at hr
          cases ht2 : CTestNetParams.ctor ext ext.base with
          | none => simp [ht2] at hr
          | some t2 =>
            rw [ht2] at hr
            exact CRegTestParams_body_fields ext _ _ hr
        | MAX_NETWORK_TYPES => simp [Params] at hnet

/-- Static construction succeeds on `sampleExternals` and yields `sampleGlobals`. -/
theorem staticInit_sample : staticInit sampleExternals = some sampleGlobals := by rfl

/-! ## Upgrade activation -/

/-- C1. Monotonic activation: for every parameter set (in particular the one of each of the
main, test and regtest networks as constructed), every upgrade index and all heights
`h1 < h2`, an upgrade that is active at `h1` is active at `h2`. -/
theorem isActive_monotone (ext : Externals) (params : Consensus.Params) (idx : UpgradeIndex)
    (h1 h2 : Int) (hlt : h1 < h2) (hact : IsActive ext params idx h1 = true) :
    IsActive ext params idx h2 = true := by
  unfold IsActive at hact ⊢
  split_ifs at hact ⊢ with hnever halways
  · simp only [decide_eq_true_eq] at hact ⊢
    omega
  · simp only [decide_eq_true_eq] at hact ⊢
    omega

/-- The proof-of-stake upgrade of the constructed main network, active at height 5001, is
active at height 5002. -/
theorem isActive_monotone_witness :
    IsActive sampleExternals sampleGlobals.mainParams.consensus UpgradeIndex.UPGRADE_POS 5002
      = true :=
  isActive_monotone sampleExternals sampleGlobals.mainParams.consensus UpgradeIndex.UPGRADE_POS
    5001 5002 (by decide) (by rfl)

/-- C2. On every network as constructed the activation height of `UPGRADE_ZC_PUBLIC` is 6000,
and, 6000 not being a sentinel value, `CheckPublicCoinSpendEnforced(h, true)` is false at every
height below 6000 and true at every height from 6000 on; the verdict is a function of the height
and the flag alone. -/
theorem checkPublicCoinSpendEnforced_public (ext : Externals) (g : Globals) (net : Network)
    (p : CChainParams) (h : Int) (hinit : staticInit ext = some g)
    (hnet : Params g net = some p) (hord : ext.isOrdinaryHeight 6000) :
    ActivationHeight p.consensus UpgradeIndex.UPGRADE_ZC_PUBLIC = 6000 ∧
    (h < 6000 → CheckPublicCoinSpendEnforced ext p.consensus h true = false) ∧
    (6000 ≤ h → CheckPublicCoinSpendEnforced ext p.consensus h true = true) := by
  have hact := (Params_fields ext g net p hinit hnet).2.1
  obtain ⟨hnever, halways⟩ := hord
  refine ⟨hact, ?_, ?_⟩
  · intro hlt
    simp only [CheckPublicCoinSpendEnforced, IsActive, hact, if_true, if_neg hnever,
      if_neg halways, decide_eq_false_iff_not]
    omega
  · intro hge
    simp only [CheckPublicCoinSpendEnforced, IsActive, hact, if_true, if_neg hnever,
      if_neg halways, decide_eq_true_eq]
    exact hge

/-- On the constructed test network a public spend is refused at height 5999 and let through at
height 6000. -/
theorem checkPublicCoinSpendEnforced_public_witness :
    CheckPublicCoinSpendEnforced sampleExternals sampleGlobals.testNetParams.consensus 5999 true
      = false ∧
    CheckPublicCoinSpendEnforced sampleExternals sampleGlobals.testNetParams.consensus 6000 true
      = true :=
  ⟨(checkPublicCoinSpendEnforced_public sampleExternals sampleGlobals Network.TESTNET
      sampleGlobals.testNetParams 5999 staticInit_sample rfl
      ⟨by decide, by decide⟩).2.1 (by decide),
   (checkPublicCoinSpendEnforced_public sampleExternals sampleGlobals Network.TESTNET
      sampleGlobals.testNetParams 6000 staticInit_sample rfl
      ⟨by decide, by decide⟩).2.2 (by decide)⟩

/-! ## Serial numbers and the double-spend check -/

/-- A serial is in the index exactly when some record carries it. -/
theorem hasSerial_iff_mem (chain : ZerocoinChain) (serial : Nat) :
    chain.hasSerial serial = true ↔ serial ∈ chain.serialIndex.map SerialNumberRecord.serial := by
  simp only [ZerocoinChain.hasSerial, List.any_eq_true, decide_eq_true_eq, List.mem_map]

/-- Recording keeps the serials of the index pairwise distinct. -/
theorem recordSerial_nodup (chain : ZerocoinChain) (serial : Nat) (height : Int)
    (hnd : (chain.serialIndex.map SerialNumberRecord.serial).Nodup) :
    ((chain.recordSerial serial height).serialIndex.map SerialNumberRecord.serial).Nodup := by
  unfold ZerocoinChain.recordSerial
  by_cases h : chain.hasSerial serial = true
  · simpa [h] using hnd
  · have hnot : serial ∉ chain.serialIndex.map SerialNumberRecord.serial :=
      fun hmem => h ((hasSerial_iff_mem chain serial).2 hmem)
    simp only [h, Bool.false_eq_true, if_false, List.map_append, List.map_cons, List.map_nil]
    rw [List.nodup_append]
    refine ⟨hnd, List.nodup_singleton _, ?_⟩
    intro a ha hb
    rw [List.mem_singleton] at hb
    exact hnot (hb ▸ ha)

/-- An accepted spend leaves the serials of the index pairwise distinct. -/
theorem acceptSpend_nodup (ext : Externals) (params : Consensus.Params)
    (chain chain1 : ZerocoinChain) (tx : CTransaction) (spend : CoinSpendProof) (nHeight : Int)
    (hashBlock : uint256) (hnd : (chain.serialIndex.map SerialNumberRecord.serial).Nodup)
    (hacc : acceptSpend ext params chain tx spend nHeight hashBlock = Except.ok chain1) :
    (chain1.serialIndex.map SerialNumberRecord.serial).Nodup := by
  unfold acceptSpend at hacc
  split at hacc
  · cases hacc
  · cases hacc
    exact recordSerial_nodup chain _ _ hnd

/-- Along any replay of candidate spends the serials of the index stay pairwise distinct. -/
theorem acceptAll_nodup (ext : Externals) (params : Consensus.Params)
    (cands : List (CTransaction × CoinSpendProof × Int × uint256)) :
    ∀ chain : ZerocoinChain, (chain.serialIndex.map SerialNumberRecord.serial).Nodup →
      ((acceptAll ext params chain cands).serialIndex.map SerialNumberRecord.serial).Nodup := by
  induction cands with
  | nil => intro chain hnd; exact hnd
  | cons c rest ih =>
    intro chain hnd
    obtain ⟨tx, spend, nHeight, hashBlock⟩ := c
    unfold acceptAll
    cases hacc : acceptSpend ext params chain tx spend nHeight hashBlock with
    | error e => exact ih chain hnd
    | ok chain1 => exact ih chain1 (acceptSpend_nodup ext params chain chain1 tx spend nHeight hashBlock hnd hacc)

/-- C6. Fail closed: on a proof-of-stake block `CheckBlockSignature` returns false when the
signature is empty, when the coinstake output script yields no public key, and when the
signature does not verify against the block's header hash. -/
theorem checkBlockSignature_fail_closed (env : BlockSigEnv) (block : CBlock) (txout : CTxOut)
    (hstake : env.coinstakeOutput block.vtx = some txout) :
    (block.vchBlockSig = [] → CheckBlockSignature env block = false) ∧
    (env.pubKeyOfScript txout.scriptPubKey = none → CheckBlockSignature env block = false) ∧
    (∀ pubkey, env.pubKeyOfScript txout.scriptPubKey = some pubkey →
      env.Verify pubkey (env.GetHash block.toCBlockHeader) block.vchBlockSig = false →
      CheckBlockSignature env block = false) := by
  refine ⟨?_, ?_, ?_⟩
  · intro hnil
    simp only [CheckBlockSignature, hstake, hnil]
    cases env.pubKeyOfScript txout.scriptPubKey <;> simp
  · intro hnone
    simp only [CheckBlockSignature, hstake, hnone]
  · intro pubkey hpk hver
    simp only [CheckBlockSignature, hstake, hpk, hver]
    split_ifs <;> rfl

/-- In `sampleSigEnv`, `sampleStakeBlock` is refused without a signature and with a signature
that is off by one in its hash byte. -/
theorem checkBlockSignature_fail_closed_witness :
    CheckBlockSignature sampleSigEnv sampleStakeBlock = false ∧
    CheckBlockSignature sampleSigEnv { sampleStakeBlock with vchBlockSig := [1600460005, 8, 9] }
      = false :=
  ⟨(checkBlockSignature_fail_closed sampleSigEnv sampleStakeBlock
      { nValue := 5, scriptPubKey := [ScriptItem.bytes [8, 9], ScriptItem.OP_CHECKSIG] }
      (by rfl)).1 (by rfl),
   (checkBlockSignature_fail_closed sampleSigEnv
      { sampleStakeBlock with vchBlockSig := [1600460005, 8, 9] }
      { nValue := 5, scriptPubKey := [ScriptItem.bytes [8, 9], ScriptItem.OP_CHECKSIG] }
      (by rfl)).2.2 [8, 9] (by rfl) (by rfl)⟩

/-- C7. On a block with no coinstake output (a proof-of-work block) `CheckBlockSignature`
returns true exactly when the signature field is empty. -/
theorem checkBlockSignature_proof_of_work (env : BlockSigEnv) (block : CBlock)
    (hpow : env.coinstakeOutput block.vtx = none) :
    CheckBlockSignature env block = true ↔ block.vchBlockSig = [] := by
  simp only [CheckBlockSignature, hpow, List.isEmpty_iff]

/-- In `sampleSigEnv` the genesis block has no coinstake output and an empty signature, and
passes the check. -/
theorem checkBlockSignature_proof_of_work_witness :
    CheckBlockSignature sampleSigEnv sampleGlobals.mainParams.genesis = true :=
  (checkBlockSignature_proof_of_work sampleSigEnv sampleGlobals.mainParams.genesis (by rfl)).2
    (by rfl)

/-! ## Spend-count limit -/

/-- The header fields and the output values of the block `CreateGenesisBlock` returns. -/
theorem CreateGenesisBlock_fields (ext : Externals) (nTime nNonce nBits : Nat) (nVersion : Int)
    (genesisReward : CAmount) :
    (CreateGenesisBlock ext nTime nNonce nBits nVersion genesisReward).nTime = nTime ∧
    (CreateGenesisBlock ext nTime nNonce nBits nVersion genesisReward).nNonce = nNonce ∧
    (CreateGenesisBlock ext nTime nNonce nBits nVersion genesisReward).nBits = nBits ∧
    (CreateGenesisBlock ext nTime nNonce nBits nVersion genesisReward).nVersion = nVersion ∧
    outputValues (CreateGenesisBlock ext nTime nNonce nBits nVersion genesisReward) =
      [[genesisReward]] :=
  ⟨rfl, rfl, rfl, rfl, rfl⟩

/-- C10 (as the code has it). The genesis block of every network as constructed is
`CreateGenesisBlock(1600458983, 1112032, 0x1e0ffff0, 1, 250 * COIN)`: timestamp 1600458983, nonce
1112032, difficulty bits 0x1e0ffff0, version 1, and a single output of value `250 * COIN` base
units, which is 250 only if `COIN` is 1. -/
theorem genesis_arguments (ext : Externals) (g : Globals) (net : Network) (p : CChainParams)
    (hinit : staticInit ext = some g) (hnet : Params g net = some p) :
    p.genesis = CreateGenesisBlock ext 1600458983 1112032 0x1e0ffff0 1 (250 * ext.COIN) ∧
    p.genesis.nTime = 1600458983 ∧ p.genesis.nNonce = 1112032 ∧
    p.genesis.nBits = 0x1e0ffff0 ∧ p.genesis.nVersion = 1 ∧
    outputValues p.genesis = [[250 * ext.COIN]] ∧
    (outputValues p.genesis = [[250]] ↔ ext.COIN = 1) := by
  have hgen := (Params_fields ext g net p hinit hnet).2.2
  obtain ⟨h1, h2, h3, h4, h5⟩ :=
    CreateGenesisBlock_fields ext 1600458983 1112032 0x1e0ffff0 1 (250 * ext.COIN)
  rw [← hgen] at h1 h2 h3 h4 h5
  refine ⟨hgen, h1, h2, h3, h4, h5, ?_⟩
  rw [h5]
  constructor
  · intro h
    have h250 : (250 : Int) * ext.COIN = 250 := by
      injection h with h _
      injection h
    have h3 : (250 : Int) * ext.COIN = 250 * 1 := by rw [h250]; rfl
    exact mul_left_cancel₀ (by norm_num) h3
  · intro h
    rw [h]
    rfl

/-- With 10^8 base units per coin the genesis output of the constructed main network is worth
25000000000 base units. -/
theorem genesis_arguments_witness :
    outputValues sampleGlobals.mainParams.genesis = [[250 * sampleExternals.COIN]] :=
  (genesis_arguments sampleExternals sampleGlobals Network.MAIN sampleGlobals.mainParams
    staticInit_sample rfl).2.2.2.2.2.1

/-- C10, the claim as stated fails: with 10^8 base units per coin the single output of the
genesis block of the constructed main network has value 25000000000, not 250. -/
theorem genesis_reward_counterexample :
    sampleExternals.COIN = 100000000 ∧
    outputValues sampleGlobals.mainParams.genesis = [[25000000000]] ∧
    outputValues sampleGlobals.mainParams.genesis ≠ [[250]] := by
  refine ⟨rfl, by rfl, by decide⟩

/-! ## More facts about the constructed parameter objects -/

/-- Every parameter object that `Params` hands out after static construction is the result of
the constructor body of its own class. -/
theorem Params_from_body (ext : Externals) (g : Globals) (net : Network) (p : CChainParams)
    (hinit : staticInit ext = some g) (hnet : Params g net = some p) :
    (net = Network.MAIN ∧ ∃ self, CMainParams.ctor ext self = some p) ∨
    (net = Network.TESTNET ∧ ∃ self, CTestNetParams.body ext self = some p) ∨
    (net = Network.REGTEST ∧ ∃ self, CRegTestParams.body ext self = some p) := by
  unfold staticInit at hinit
  cases hm : CMainParams.ctor ext ext.base with
  | none => simp [hm] at hinit
  | some m =>
    cases ht : CTestNetParams.ctor ext ext.base with
    | none => simp [hm, ht] at hinit
    | some t =>
      cases hr : CRegTestParams.ctor ext ext.base with
      | none => simp [hm, ht, hr] at hinit
      | some r =>
        simp only [hm, ht, hr, Option.some_bind, Option.some.injEq] at hinit
        subst hinit
        cases net with
        | MAIN =>
          simp only [Params, Option.some.injEq] at hnet
          subst hnet
          exact Or.inl ⟨rfl, ext.base, hm⟩
        | TESTNET =>
          simp only [Params, Option.some.injEq] at hnet
          subst hnet
          unfold CTestNetParams.ctor at ht
          cases hm2 : CMainParams.ctor ext ext.base with
          | none => simp [hm2] at ht
          | some m2 =>
            rw [hm2] at ht
            exact Or.inr (Or.inl ⟨rfl, m2, ht⟩)
        | REGTEST =>
          simp only [Params, Option.some.injEq] at hnet
          subst hnet
          unfold CRegTestParams.ctor at hr
          cases ht2 : CTestNetParams.ctor ext ext.base with
          | none => simp [ht2] at hr
          | some t2 =>
            rw [ht2] at hr
            exact Or.inr (Or.inr ⟨rfl, t2, hr⟩)
        | MAX_NETWORK_TYPES => simp [Params] at hnet

/-- The activation table, the spend limits and the bad-block pair that the body of `CMainParams`
assigns. -/
theorem CMainParams_ctor_consensus (ext : Externals) (self p : CChainParams)
    (h : CMainParams.ctor ext self = some p) :
    (∀ idx, ActivationHeight p.consensus idx =
      match idx with
      | UpgradeIndex.BASE_NETWORK => ext.ALWAYS_ACTIVE
      | UpgradeIndex.UPGRADE_TESTDUMMY => ext.NO_ACTIVATION_HEIGHT
      | UpgradeIndex.UPGRADE_POS => 5001
      | UpgradeIndex.UPGRADE_POS_V2 => 5010
      | UpgradeIndex.UPGRADE_ZC => 5050
      | UpgradeIndex.UPGRADE_ZC_V2 => 5100
      | UpgradeIndex.UPGRADE_BIP65 => ext.ALWAYS_ACTIVE
      | UpgradeIndex.UPGRADE_ZC_PUBLIC => 6000
      | UpgradeIndex.UPGRADE_V3_4 => 5300
      | UpgradeIndex.UPGRADE_V4_0 => 5400
      | UpgradeIndex.UPGRADE_V5_DUMMY => ext.NO_ACTIVATION_HEIGHT) ∧
    p.consensus.ZC_MaxPublicSpendsPerTx = 637 ∧ p.consensus.ZC_MaxSpendsPerTx = 7 ∧
    p.consensus.nTarianBadBlockTime = 1471401614 ∧ p.consensus.nTarianBadBlockBits = 0x1c056dac := by
  simp only [CMainParams.ctor] at h
  split_ifs at h
  cases h
  refine ⟨?_, rfl, rfl, rfl, rfl⟩
  intro idx
  cases idx <;> simp [ActivationHeight, setActivationHeight, setActivationHash, Function.update]

/-- The activation table, the spend limits and the bad-block pair that the body of
`CTestNetParams` assigns. -/
theorem CTestNetParams_body_consensus (ext : Externals) (self p : CChainParams)
    (h : CTestNetParams.body ext self = some p) :
    (∀ idx, ActivationHeight p.consensus idx =
      match idx with
      | UpgradeIndex.BASE_NETWORK => ext.ALWAYS_ACTIVE
      | UpgradeIndex.UPGRADE_TESTDUMMY => ext.NO_ACTIVATION_HEIGHT
      | UpgradeIndex.UPGRADE_POS => 5001
      | UpgradeIndex.UPGRADE_POS_V2 => 5010
      | UpgradeIndex.UPGRADE_ZC => 5050
      | UpgradeIndex.UPGRADE_ZC_V2 => 5100
      | UpgradeIndex.UPGRADE_BIP65 => ext.ALWAYS_ACTIVE
      | UpgradeIndex.UPGRADE_ZC_PUBLIC => 6000
      | UpgradeIndex.UPGRADE_V3_4 => 5300
      | UpgradeIndex.UPGRADE_V4_0 => 5400
      | UpgradeIndex.UPGRADE_V5_DUMMY => ext.NO_ACTIVATION_HEIGHT) ∧
    p.consensus.ZC_MaxPublicSpendsPerTx = 637 ∧ p.consensus.ZC_MaxSpendsPerTx = 7 ∧
    p.consensus.nTarianBadBlockTime = 1471401614 ∧ p.consensus.nTarianBadBlockBits = 0x1c056dac := by
  simp only [CTestNetParams.body] at h
  split_ifs at h
  cases h
  refine ⟨?_, rfl, rfl, rfl, rfl⟩
  intro idx
  cases idx <;> simp [ActivationHeight, setActivationHeight, setActivationHash, Function.update]

/-- The activation table, the spend limits and the bad-block pair that the body of
`CRegTestParams` assigns. -/
theorem CRegTestParams_body_consensus (ext : Externals) (self p : CChainParams)
    (h : CRegTestParams.body ext self = some p) :
    (∀ idx, ActivationHeight p.consensus idx =
      match idx with
      | UpgradeIndex.BASE_NETWORK => ext.ALWAYS_ACTIVE
      | UpgradeIndex.UPGRADE_TESTDUMMY => ext.NO_ACTIVATION_HEIGHT
      | UpgradeIndex.UPGRADE_POS => 5001
      | UpgradeIndex.UPGRADE_POS_V2 => 5010
      | UpgradeIndex.UPGRADE_ZC => 5050
      | UpgradeIndex.UPGRADE_ZC_V2 => 5100
      | UpgradeIndex.UPGRADE_BIP65 => ext.ALWAYS_ACTIVE
      | UpgradeIndex.UPGRADE_ZC_PUBLIC => 6000
      | UpgradeIndex.UPGRADE_V3_4 => 5300
      | UpgradeIndex.UPGRADE_V4_0 => 5400
      | UpgradeIndex.UPGRADE_V5_DUMMY => ext.NO_ACTIVATION_HEIGHT) ∧
    p.consensus.ZC_MaxPublicSpendsPerTx = 637 ∧ p.consensus.ZC_MaxSpendsPerTx = 7 ∧
    p.consensus.nTarianBadBlockTime = 1471401614 ∧ p.consensus.nTarianBadBlockBits = 0x1c056dac := by
  simp only [CRegTestParams.body] at h
  split_ifs at h
  cases h
  refine ⟨?_, rfl, rfl, rfl, rfl⟩
  intro idx
  cases idx <;> simp [ActivationHeight, setActivationHeight, setActivationHash, Function.update]

/-- The activation table, the spend limits and the bad-block pair of every network as
constructed. -/
theorem Params_consensus (ext : Externals) (g : Globals) (net : Network) (p : CChainParams)
    (hinit : staticInit ext = some g) (hnet : Params g net = some p) :
    (∀ idx, ActivationHeight p.consensus idx =
      match idx with
      | UpgradeIndex.BASE_NETWORK => ext.ALWAYS_ACTIVE
      | UpgradeIndex.UPGRADE_TESTDUMMY => ext.NO_ACTIVATION_HEIGHT
      | UpgradeIndex.UPGRADE_POS => 5001
      | UpgradeIndex.UPGRADE_POS_V2 => 5010
      | UpgradeIndex.UPGRADE_ZC => 5050
      | UpgradeIndex.UPGRADE_ZC_V2 => 5100
      | UpgradeIndex.UPGRADE_BIP65 => ext.ALWAYS_ACTIVE
      | UpgradeIndex.UPGRADE_ZC_PUBLIC => 6000
      | UpgradeIndex.UPGRADE_V3_4 => 5300
      | UpgradeIndex.UPGRADE_V4_0 => 5400
      | UpgradeIndex.UPGRADE_V5_DUMMY => ext.NO_ACTIVATION_HEIGHT) ∧
    p.consensus.ZC_MaxPublicSpendsPerTx = 637 ∧ p.consensus.ZC_MaxSpendsPerTx = 7 ∧
    p.consensus.nTarianBadBlockTime = 1471401614 ∧ p.consensus.nTarianBadBlockBits = 0x1c056dac := by
  rcases Params_from_body ext g net p hinit hnet with ⟨_, self, h⟩ | ⟨_, self, h⟩ | ⟨_, self, h⟩
  · exact CMainParams_ctor_consensus ext self p h
  · exact CTestNetParams_body_consensus ext self p h
  · exact CRegTestParams_body_consensus ext self p h

/-- The network id and name that each constructor body assigns. -/
theorem Params_identity (ext : Externals) (g : Globals) (net : Network) (p : CChainParams)
    (hinit : staticInit ext = some g) (hnet : Params g net = some p) :
    p.networkID = net ∧
    (net = Network.MAIN → p.strNetworkID = "main") ∧
    (net = Network.TESTNET → p.strNetworkID = "test") ∧
    (net = Network.REGTEST → p.strNetworkID = "regtest") := by
  rcases Params_from_body ext g net p hinit hnet with ⟨hn, self, h⟩ | ⟨hn, self, h⟩ | ⟨hn, self, h⟩
  · subst hn
    simp only [CMainParams.ctor] at h
    split_ifs at h
    cases h
    refine ⟨rfl, ?_, ?_, ?_⟩ <;> intro hn <;> first | rfl | cases hn
  · subst hn
    simp only [CTestNetParams.body] at h
    split_ifs at h
    cases h
    refine ⟨rfl, ?_, ?_, ?_⟩ <;> intro hn <;> first | rfl | cases hn
  · subst hn
    simp only [CRegTestParams.body] at h
    split_ifs at h
    cases h
    refine ⟨rfl, ?_, ?_, ?_⟩ <;> intro hn <;> first | rfl | cases hn

/-! ## Sentinel activation heights -/

/-- C12. An upgrade whose activation height is the `ALWAYS_ACTIVE` sentinel is active at every
height from 0 on (the two sentinels being different values), and on every network as constructed
`BASE_NETWORK` and `UPGRADE_BIP65` are such upgrades. -/
theorem isActive_always_active (ext : Externals) (g : Globals) (net : Network) (p : CChainParams)
    (h : Int) (hinit : staticInit ext = some g) (hnet : Params g net = some p)
    (hsent : ext.ALWAYS_ACTIVE ≠ ext.NO_ACTIVATION_HEIGHT) (hh : 0 ≤ h) :
    (∀ (params : Consensus.Params) (idx : UpgradeIndex),
      ActivationHeight params idx = ext.ALWAYS_ACTIVE → IsActive ext params idx h = true) ∧
    ActivationHeight p.consensus UpgradeIndex.BASE_NETWORK = ext.ALWAYS_ACTIVE ∧
    ActivationHeight p.consensus UpgradeIndex.UPGRADE_BIP65 = ext.ALWAYS_ACTIVE ∧
    IsActive ext p.consensus UpgradeIndex.BASE_NETWORK h = true ∧
    IsActive ext p.consensus UpgradeIndex.UPGRADE_BIP65 h = true := by
  have hgen : ∀ (params : Consensus.Params) (idx : UpgradeIndex),
      ActivationHeight params idx = ext.ALWAYS_ACTIVE → IsActive ext params idx h = true := by
    intro params idx hidx
    simp only [IsActive, hidx, if_neg hsent, if_true, decide_eq_true_eq]
    exact hh
  have htab := (Params_consensus ext g net p hinit hnet).1
  have hbase := htab UpgradeIndex.BASE_NETWORK
  have hbip := htab UpgradeIndex.UPGRADE_BIP65
  simp only at hbase hbip
  exact ⟨hgen, hbase, hbip, hgen _ _ hbase, hgen _ _ hbip⟩

/-- On the constructed main network `UPGRADE_BIP65` is active at height 0. -/
theorem isActive_always_active_witness :
    IsActive sampleExternals sampleGlobals.mainParams.consensus UpgradeIndex.UPGRADE_BIP65 0
      = true :=
  (isActive_always_active sampleExternals sampleGlobals Network.MAIN sampleGlobals.mainParams 0
    staticInit_sample rfl (by decide) (by decide)).2.2.2.2

/-- C13. An upgrade whose activation height is the `NO_ACTIVATION_HEIGHT` sentinel is active at
no height, and on every network as constructed `UPGRADE_TESTDUMMY` and `UPGRADE_V5_DUMMY` are
such upgrades. -/
theorem isActive_no_activation (ext : Externals) (g : Globals) (net : Network) (p : CChainParams)
    (h : Int) (hinit : staticInit ext = some g) (hnet : Params g net = some p) :
    (∀ (params : Consensus.Params) (idx : UpgradeIndex),
      ActivationHeight params idx = ext.NO_ACTIVATION_HEIGHT → IsActive ext params idx h = false) ∧
    ActivationHeight p.consensus UpgradeIndex.UPGRADE_TESTDUMMY = ext.NO_ACTIVATION_HEIGHT ∧
    ActivationHeight p.consensus UpgradeIndex.UPGRADE_V5_DUMMY = ext.NO_ACTIVATION_HEIGHT ∧
    IsActive ext p.consensus UpgradeIndex.UPGRADE_TESTDUMMY h = false ∧
    IsActive ext p.consensus UpgradeIndex.UPGRADE_V5_DUMMY h = false := by
  have hgen : ∀ (params : Consensus.Params) (idx : UpgradeIndex),
      ActivationHeight params idx = ext.NO_ACTIVATION_HEIGHT →
      IsActive ext params idx h = false := by
    intro params idx hidx
    simp only [IsActive, hidx, if_true]
  have htab := (Params_consensus ext g net p hinit hnet).1
  have hdummy := htab UpgradeIndex.UPGRADE_TESTDUMMY
  have hv5 := htab UpgradeIndex.UPGRADE_V5_DUMMY
  simp only at hdummy hv5
  exact ⟨hgen, hdummy, hv5, hgen _ _ hdummy, hgen _ _ hv5⟩

/-- On the constructed regtest network `UPGRADE_V5_DUMMY` is not active at height 10^9. -/
theorem isActive_no_activation_witness :
    IsActive sampleExternals sampleGlobals.regTestParams.consensus UpgradeIndex.UPGRADE_V5_DUMMY
      1000000000 = false :=
  (isActive_no_activation sampleExternals sampleGlobals Network.REGTEST
    sampleGlobals.regTestParams 1000000000 staticInit_sample rfl).2.2.2.2

/-! ## Selection and mutation of the parameter sets -/

/-- Selection sets the pointer and touches none of the three parameter objects. -/
theorem SelectParams_frame (g g1 : Globals) (network : Network)
    (h : SelectParams g network = some g1) :
    g1 = { g with pCurrentParams := some network } ∧ network ≠ Network.MAX_NETWORK_TYPES := by
  unfold SelectParams at h
  cases network <;> simp [Params] at h <;> exact ⟨h.symm, by decide⟩

/-- An update rewrites one activation height of the regtest object and nothing else. -/
theorem UpdateNetworkUpgradeParameters_frame (ext : Externals) (g g1 : Globals)
    (idx : UpgradeIndex) (nActivationHeight : Int)
    (h : UpdateNetworkUpgradeParameters ext g idx nActivationHeight = some g1) :
    g1 = { g with regTestParams := (withUpgrades g.regTestParams
      (setActivationHeight g.regTestParams.consensus.vUpgrades idx nActivationHeight)) } := by
  unfold UpdateNetworkUpgradeParameters CRegTestParams.UpdateNetworkUpgradeParameters at h
  split_ifs at h
  · simp only [Option.map_some', Option.some.injEq] at h
    exact h.symm
  · simp at h

/-- Setting an activation height keeps every pinned hash. -/
theorem setActivationHeight_hash (v : UpgradeIndex → NetworkUpgrade) (idx j : UpgradeIndex)
    (h : Int) :
    (setActivationHeight v idx h j).hashActivationBlock = (v j).hashActivationBlock := by
  unfold setActivationHeight
  by_cases hj : j = idx
  · subst hj
    simp
  · simp [Function.update, hj]

/-- What one operation leaves unchanged. -/
theorem ParamsOp_run_frame (ext : Externals) (g g1 : Globals) (op : ParamsOp)
    (h : op.run ext g = some g1) :
    g1.mainParams = g.mainParams ∧ g1.testNetParams = g.testNetParams ∧
    g1.regTestParams = withUpgrades g.regTestParams g1.regTestParams.consensus.vUpgrades ∧
    (∀ idx, (g1.regTestParams.consensus.vUpgrades idx).hashActivationBlock =
      (g.regTestParams.consensus.vUpgrades idx).hashActivationBlock) := by
  cases op with
  | select network =>
    obtain ⟨rfl, _⟩ := SelectParams_frame g g1 network h
    exact ⟨rfl, rfl, rfl, fun _ => rfl⟩
  | selectFromCommandLine network =>
    simp only [ParamsOp.run, SelectParamsFromCommandLine] at h
    split_ifs at h with hmax
    · simp only [Option.map_some', Option.some.injEq] at h
      subst h
      exact ⟨rfl, rfl, rfl, fun _ => rfl⟩
    · cases hsel : SelectParams g network with
      | none => simp [hsel] at h
      | some g2 =>
        simp only [hsel, Option.map_some', Option.some.injEq] at h
        subst h
        obtain ⟨rfl, _⟩ := SelectParams_frame g g2 network hsel
        exact ⟨rfl, rfl, rfl, fun _ => rfl⟩
  | update idx nActivationHeight =>
    have hg := UpdateNetworkUpgradeParameters_frame ext g g1 idx nActivationHeight h
    subst hg
    exact ⟨rfl, rfl, rfl, fun j => setActivationHeight_hash _ idx j nActivationHeight⟩

/-- What a sequence of operations leaves unchanged. -/
theorem runOps_frame (ext : Externals) (ops : List ParamsOp) :
    ∀ g g2 : Globals, runOps ext g ops = some g2 →
      g2.mainParams = g.mainParams ∧ g2.testNetParams = g.testNetParams ∧
      g2.regTestParams = withUpgrades g.regTestParams g2.regTestParams.consensus.vUpgrades ∧
      (∀ idx, (g2.regTestParams.consensus.vUpgrades idx).hashActivationBlock =
        (g.regTestParams.consensus.vUpgrades idx).hashActivationBlock) := by
  induction ops with
  | nil =>
    intro g g2 h
    simp only [runOps, Option.some.injEq] at h
    subst h
    exact ⟨rfl, rfl, rfl, fun _ => rfl⟩
  | cons op rest ih =>
    intro g g2 h
    unfold runOps at h
    cases hop : op.run ext g with
    | none => simp [hop] at h
    | some g1 =>
      simp only [hop, Option.some_bind] at h
      obtain ⟨hm1, ht1, hr1, hh1⟩ := ParamsOp_run_frame ext g g1 op hop
      obtain ⟨hm2, ht2, hr2, hh2⟩ := ih g1 g2 h
      refine ⟨hm2.trans hm1, ht2.trans ht1, ?_, fun idx => (hh2 idx).trans (hh1 idx)⟩
      calc g2.regTestParams
          = withUpgrades g1.regTestParams g2.regTestParams.consensus.vUpgrades := hr2
        _ = withUpgrades (withUpgrades g.regTestParams g1.regTestParams.consensus.vUpgrades)
              g2.regTestParams.consensus.vUpgrades := by rw [← hr1]
        _ = withUpgrades g.regTestParams g2.regTestParams.consensus.vUpgrades := rfl

/-- C14 (as the code has it). Whatever sequence of the operations that chainparams.cpp exposes
is run, the main and test parameter objects keep every field; the regtest object keeps every
field except its upgrade table, whose pinned hashes are kept too (only
`UpdateNetworkUpgradeParameters` writes there, and only activation heights); hence, while the
main or the test network is the selected one, `Params()` returns the object exactly as it was. -/
theorem params_immutable_except_regtest (ext : Externals) (g g2 : Globals) (ops : List ParamsOp)
    (hrun : runOps ext g ops = some g2) :
    g2.mainParams = g.mainParams ∧ g2.testNetParams = g.testNetParams ∧
    g2.regTestParams = withUpgrades g.regTestParams g2.regTestParams.consensus.vUpgrades ∧
    (∀ idx, (g2.regTestParams.consensus.vUpgrades idx).hashActivationBlock =
      (g.regTestParams.consensus.vUpgrades idx).hashActivationBlock) ∧
    (∀ net, net ≠ Network.REGTEST → Params g2 net = Params g net) ∧
    (∀ net, g2.pCurrentParams = some net → net ≠ Network.REGTEST →
      Params.current g2 = Params g net) := by
  obtain ⟨hm, ht, hr, hh⟩ := runOps_frame ext ops g g2 hrun
  have hpar : ∀ net, net ≠ Network.REGTEST → Params g2 net = Params g net := by
    intro net hne
    cases net with
    | MAIN => simp only [Params, hm]
    | TESTNET => simp only [Params, ht]
    | REGTEST => exact absurd rfl hne
    | MAX_NETWORK_TYPES => rfl
  refine ⟨hm, ht, hr, hh, hpar, ?_⟩
  intro net hcur hne
  simp only [Params.current, hcur, Option.some_bind]
  exact hpar net hne

/-- On `sampleGlobals`: after selecting the main network, updating the proof-of-stake height
and selecting the main network again, `Params()` is the main object as constructed. -/
theorem params_immutable_except_regtest_witness :
    Params.current sampleAfterOps = Params sampleGlobals Network.MAIN :=
  (params_immutable_except_regtest sampleExternals sampleGlobals sampleAfterOps
    [ParamsOp.select Network.MAIN, ParamsOp.update UpgradeIndex.UPGRADE_POS 1,
     ParamsOp.select Network.MAIN] (by rfl)).2.2.2.2.2 Network.MAIN (by rfl) (by decide)

/-- C14, the claim as stated fails: with the regtest network selected on `sampleGlobals`,
`Params()` reports activation height 5001 for `UPGRADE_POS`, and after
`UpdateNetworkUpgradeParameters(UPGRADE_POS, 1)` it reports 1. -/
theorem params_immutable_counterexample :
    SelectParams sampleGlobals Network.REGTEST = some sampleRegtestSelected ∧
    (Params.current sampleRegtestSelected).map
      (fun p => ActivationHeight p.consensus UpgradeIndex.UPGRADE_POS) = some 5001 ∧
    ((UpdateNetworkUpgradeParameters sampleExternals sampleRegtestSelected
        UpgradeIndex.UPGRADE_POS 1).bind Params.current).map
      (fun p => ActivationHeight p.consensus UpgradeIndex.UPGRADE_POS) = some 1 := by
  refine ⟨by rfl, by rfl, by rfl⟩

/-- A spend whose serial number is recorded is never accepted by the full contextual check. -/
theorem contextualCheck_recorded_serial_aux (ext : Externals) (params : Consensus.Params)
    (chain : ZerocoinChain) (tx : CTransaction) (spend : CoinSpendProof) (nHeight : Int)
    (hashBlock : uint256) (hrec : chain.hasSerial spend.serial = true) :
    ContextualCheckZerocoinSpend ext params chain tx spend nHeight hashBlock ≠ Except.ok () := by
  unfold ContextualCheckZerocoinSpend
  split
  · intro h; cases h
  · simp [hrec]

/-! ## Proof version and the fake-serial window -/

/-- C15. Proof-version gate: `CheckPublicCoinSpendVersion(v)` is true exactly when `v` is
`CurrentPublicCoinSpendVersion()`; in particular every older version is refused, and
`ContextualCheckZerocoinSpend` accepts no proof of another version. -/
theorem checkPublicCoinSpendVersion_iff (ext : Externals) (params : Consensus.Params)
    (chain : ZerocoinChain) (tx : CTransaction) (spend : CoinSpendProof) (nHeight : Int)
    (hashBlock : uint256) (v : Int) :
    (CheckPublicCoinSpendVersion chain v = true ↔ v = CurrentPublicCoinSpendVersion chain) ∧
    (v < CurrentPublicCoinSpendVersion chain → CheckPublicCoinSpendVersion chain v = false) ∧
    (spend.version ≠ CurrentPublicCoinSpendVersion chain →
      ContextualCheckZerocoinSpend ext params chain tx spend nHeight hashBlock ≠ Except.ok ()) := by
  refine ⟨?_, ?_, ?_⟩
  · simp only [CheckPublicCoinSpendVersion, decide_eq_true_eq]
  · intro hlt
    simp only [CheckPublicCoinSpendVersion, decide_eq_false_iff_not]
    omega
  · intro hne
    have hver : CheckPublicCoinSpendVersion chain spend.version = false := by
      simp only [CheckPublicCoinSpendVersion, decide_eq_false_iff_not]
      exact hne
    unfold ContextualCheckZerocoinSpend ContextualPolicyChecks
    split_ifs <;> simp_all

/-- On `sampleChain`, which mandates version 3, version 2 is refused. -/
theorem checkPublicCoinSpendVersion_iff_witness :
    CheckPublicCoinSpendVersion sampleChain 2 = false :=
  (checkPublicCoinSpendVersion_iff sampleExternals sampleGlobals.mainParams.consensus sampleChain
    sampleTx sampleSpend 5500 0 2).2.1 (by decide)

/-- C16. Fake-serial window: at a height inside the window the no-serial-check variant is the
full check, so it accepts a spend only if `ContextualCheckZerocoinSpend` accepts it, and it
rejects a spend whose serial number is already recorded. -/
theorem noSerialCheck_inside_window (ext : Externals) (params : Consensus.Params)
    (window : FakeSerialWindow) (chain : ZerocoinChain) (tx : CTransaction)
    (spend : CoinSpendProof) (nHeight : Int) (hashBlock : uint256)
    (hin : isBlockBetweenFakeSerialAttackRange window nHeight = true) :
    ContextualCheckZerocoinSpendNoSerialCheck ext params window chain tx spend nHeight hashBlock =
      ContextualCheckZerocoinSpend ext params chain tx spend nHeight hashBlock ∧
    (ContextualCheckZerocoinSpendNoSerialCheck ext params window chain tx spend nHeight hashBlock
        = Except.ok () →
      ContextualCheckZerocoinSpend ext params chain tx spend nHeight hashBlock = Except.ok ()) ∧
    (chain.hasSerial spend.serial = true →
      ContextualCheckZerocoinSpendNoSerialCheck ext params window chain tx spend nHeight hashBlock
        ≠ Except.ok ()) := by
  have heq : ContextualCheckZerocoinSpendNoSerialCheck ext params window chain tx spend nHeight
      hashBlock = ContextualCheckZerocoinSpend ext params chain tx spend nHeight hashBlock := by
    simp only [ContextualCheckZerocoinSpendNoSerialCheck, hin, if_true]
  refine ⟨heq, fun h => heq ▸ h, ?_⟩
  intro hrec
  rw [heq]
  exact ((contextualCheck_recorded_serial_aux ext params chain tx spend nHeight hashBlock) hrec)

/-- On the constructed main network, at height 150 inside `sampleWindow`, the no-serial-check
variant rejects the replay of `sampleSpend` with the double-spend error. -/
theorem noSerialCheck_inside_window_witness :
    ContextualCheckZerocoinSpendNoSerialCheck sampleExternals
      sampleGlobals.mainParams.consensus sampleWindow (sampleChain.recordSerial 77 150) sampleTx
      sampleSpend 150 0 =
    ContextualCheckZerocoinSpend sampleExternals sampleGlobals.mainParams.consensus
      (sampleChain.recordSerial 77 150) sampleTx sampleSpend 150 0 :=
  (noSerialCheck_inside_window sampleExternals sampleGlobals.mainParams.consensus sampleWindow
    (sampleChain.recordSerial 77 150) sampleTx sampleSpend 150 0 (by rfl)).1

/-! ## Difficulty-bits exemption -/

/-- C17. On every network as constructed the exemption from difficulty-bits validation applies
to a block exactly when its time is 1471401614 and its bits are 0x1c056dac; such a block passes
whatever the standard rule says, and every other block gets the verdict of the standard rule. -/
theorem badBlockExemption_single_value (ext : Externals) (g : Globals) (net : Network)
    (p : CChainParams) (standardRule : CBlockHeader → Bool) (block : CBlockHeader)
    (hinit : staticInit ext = some g) (hnet : Params g net = some p) :
    p.consensus.nTarianBadBlockTime = 1471401614 ∧ p.consensus.nTarianBadBlockBits = 0x1c056dac ∧
    (isBadBlockExemption p.consensus block = true ↔
      block.nTime = 1471401614 ∧ block.nBits = 0x1c056dac) ∧
    (block.nTime = 1471401614 ∧ block.nBits = 0x1c056dac →
      CheckDifficultyBits p.consensus standardRule block = true) ∧
    (¬ (block.nTime = 1471401614 ∧ block.nBits = 0x1c056dac) →
      CheckDifficultyBits p.consensus standardRule block = standardRule block) := by
  obtain ⟨_, _, _, htime, hbits⟩ := Params_consensus ext g net p hinit hnet
  have hiff : isBadBlockExemption p.consensus block = true ↔
      block.nTime = 1471401614 ∧ block.nBits = 0x1c056dac := by
    simp only [isBadBlockExemption, htime, hbits, Bool.and_eq_true, decide_eq_true_eq]
    constructor
    · rintro ⟨h1, h2⟩
      exact ⟨by exact_mod_cast h1, by exact_mod_cast h2⟩
    · rintro ⟨h1, h2⟩
      exact ⟨by rw [h1]; rfl, by rw [h2]; rfl⟩
  refine ⟨htime, hbits, hiff, ?_, ?_⟩
  · intro hb
    simp only [CheckDifficultyBits, hiff.2 hb, if_true]
  · intro hb
    have hfalse : isBadBlockExemption p.consensus block = false := by
      cases hx : isBadBlockExemption p.consensus block with
      | false => rfl
      | true => exact absurd (hiff.1 hx) hb
    simp only [CheckDifficultyBits, hfalse, Bool.false_eq_true, if_false]

/-- On the constructed main network the bad-block header passes under a standard rule that
refuses everything. -/
theorem badBlockExemption_single_value_witness :
    CheckDifficultyBits sampleGlobals.mainParams.consensus (fun _ => false) sampleBadBlock
      = true :=
  (badBlockExemption_single_value sampleExternals sampleGlobals Network.MAIN
    sampleGlobals.mainParams (fun _ => false) sampleBadBlock staticInit_sample rfl).2.2.2.1
    ⟨rfl, rfl⟩

/-! ## Supply reconciliation -/

/-- The replay rewrites figures only: the chain keeps its length. -/
theorem replaySupply_length (fSkipZtarn : Bool) (blocks : List SupplyBlock) :
    ∀ total : CAmount, (replaySupply fSkipZtarn total blocks).2.length = blocks.length := by
  induction blocks with
  | nil => intro total; rfl
  | cons b rest ih =>
    intro total
    by_cases hb : b.reconciles = true
    · simp only [replaySupply, hb, if_true, List.length_cons, ih]
    · simp only [replaySupply, hb, if_false, Bool.false_eq_true]

/-- Replaying what a replay left gives the same verdict and the same figures. -/
theorem replaySupply_idempotent (fSkipZtarn : Bool) (blocks : List SupplyBlock) :
    ∀ total : CAmount,
      replaySupply fSkipZtarn total (replaySupply fSkipZtarn total blocks).2 =
        replaySupply fSkipZtarn total blocks := by
  induction blocks with
  | nil => intro total; rfl
  | cons b rest ih =>
    intro total
    by_cases hb : b.reconciles = true
    · have h1 : replaySupply fSkipZtarn total (b :: rest) =
          ((replaySupply fSkipZtarn
              (total + b.nValueDelta + (if fSkipZtarn then 0 else b.nZerocoinDelta)) rest).1,
            { b with nMoneySupply :=
                total + b.nValueDelta + (if fSkipZtarn then 0 else b.nZerocoinDelta) } ::
              (replaySupply fSkipZtarn
                (total + b.nValueDelta + (if fSkipZtarn then 0 else b.nZerocoinDelta)) rest).2) := by
        simp only [replaySupply, hb, if_true]
      rw [h1]
      simp only [replaySupply, hb, if_true, ih]
    · have h1 : replaySupply fSkipZtarn total (b :: rest) = (false, b :: rest) := by
        simp only [replaySupply, hb, if_false, Bool.false_eq_true]
      rw [h1]
      exact h1

/-- The prefix below the start height and the suffix from it on, after a run. -/
theorem take_drop_after_run (chain suffix : List SupplyBlock) (n : Nat)
    (hlen : suffix.length = (chain.drop n).length) :
    (chain.take n ++ suffix).take n = chain.take n ∧
    (chain.take n ++ suffix).drop n = suffix := by
  by_cases hn : n ≤ chain.length
  · have htl : (chain.take n).length = n := by simp [List.length_take, hn]
    constructor
    · rw [List.take_append_of_le_length (by omega)]
      rw [List.take_of_length_le (by omega)]
    · rw [List.drop_append_of_le_length (by omega)]
      rw [List.drop_of_length_le (by omega)]
      rfl
  · have hge : chain.length ≤ n := by omega
    have hnil : suffix = [] := by
      apply List.eq_nil_of_length_eq_zero
      rw [hlen, List.length_drop]
      omega
    subst hnil
    rw [List.append_nil, List.take_of_length_le hge]
    exact ⟨List.take_of_length_le hge, List.drop_of_length_le hge⟩

/-- The replay leaves the deltas and the reconciliation flag of every block as they were. -/
theorem replaySupply_keeps_blocks (fSkipZtarn : Bool) (blocks : List SupplyBlock) :
    ∀ total : CAmount,
      (replaySupply fSkipZtarn total blocks).2.map
          (fun b => (b.nValueDelta, b.nZerocoinDelta, b.reconciles)) =
        blocks.map (fun b => (b.nValueDelta, b.nZerocoinDelta, b.reconciles)) := by
  induction blocks with
  | nil => intro total; rfl
  | cons b rest ih =>
    intro total
    by_cases hb : b.reconciles = true
    · simp only [replaySupply, hb, if_true, List.map_cons, ih]
    · simp only [replaySupply, hb, if_false, Bool.false_eq_true]

/-- C18. Supply reconciliation is repeatable: a run of `RecalculateTARNSupply(h, skip)` leaves
the blocks of the chain unchanged apart from their supply figures, and a second run, on the chain
as the first run left it, returns the same success verdict and leaves the same supply figures as
the first run did. -/
theorem recalculateSupply_repeatable (chain : List SupplyBlock) (nHeightStart : Int)
    (fSkipZtarn : Bool) :
    (RecalculateTARNSupply chain nHeightStart fSkipZtarn).2.map
        (fun b => (b.nValueDelta, b.nZerocoinDelta, b.reconciles)) =
      chain.map (fun b => (b.nValueDelta, b.nZerocoinDelta, b.reconciles)) ∧
    RecalculateTARNSupply (RecalculateTARNSupply chain nHeightStart fSkipZtarn).2 nHeightStart
        fSkipZtarn =
      RecalculateTARNSupply chain nHeightStart fSkipZtarn := by
  constructor
  · unfold RecalculateTARNSupply
    simp only [List.map_append, replaySupply_keeps_blocks]
    rw [← List.map_append, List.take_append_drop]
  · unfold RecalculateTARNSupply
    obtain ⟨htake, hdrop⟩ := take_drop_after_run chain
      (replaySupply fSkipZtarn (supplyOnRecord (chain.take nHeightStart.toNat))
        (chain.drop nHeightStart.toNat)).2 nHeightStart.toNat
      (replaySupply_length fSkipZtarn _ _)
    simp only [htake, hdrop, replaySupply_idempotent]

/-! ## Selection by network -/

/-- C19. After static construction, for each of the three networks `Params(n)` returns an
object whose network id is `n` and whose name is "main", "test" or "regtest" respectively, and
after `SelectParams(n)` the argument-less `Params()` returns that same object. -/
theorem params_selection (ext : Externals) (g : Globals) (net : Network)
    (hinit : staticInit ext = some g) (hnet : net ≠ Network.MAX_NETWORK_TYPES) :
    ∃ p g1, Params g net = some p ∧ p.networkID = net ∧
      (net = Network.MAIN → p.strNetworkID = "main") ∧
      (net = Network.TESTNET → p.strNetworkID = "test") ∧
      (net = Network.REGTEST → p.strNetworkID = "regtest") ∧
      SelectParams g net = some g1 ∧ Params.current g1 = some p ∧
      Params g1 net = some p := by
  have hsome : ∃ p, Params g net = some p := by
    cases net with
    | MAIN => exact ⟨_, rfl⟩
    | TESTNET => exact ⟨_, rfl⟩
    | REGTEST => exact ⟨_, rfl⟩
    | MAX_NETWORK_TYPES => exact absurd rfl hnet
  obtain ⟨p, hp⟩ := hsome
  obtain ⟨hid, hmain, htest, hreg⟩ := Params_identity ext g net p hinit hp
  refine ⟨p, { g with pCurrentParams := some net }, hp, hid, hmain, htest, hreg, ?_, ?_, ?_⟩
  · simp only [SelectParams, hp, Option.map_some']
  · simp only [Params.current, Option.some_bind]
    cases net <;> exact hp
  · cases net <;> exact hp

/-- On `sampleGlobals`, selecting the test network makes `Params()` the test object. -/
theorem params_selection_witness :
    ∃ p g1, Params sampleGlobals Network.TESTNET = some p ∧ p.networkID = Network.TESTNET ∧
      p.strNetworkID = "test" ∧
      SelectParams sampleGlobals Network.TESTNET = some g1 ∧ Params.current g1 = some p ∧
      Params g1 Network.TESTNET = some p := by
  obtain ⟨p, g1, hp, hid, _, htest, _, hsel, hcur, hpar⟩ :=
    params_selection sampleExternals sampleGlobals Network.TESTNET staticInit_sample (by decide)
  exact ⟨p, g1, hp, hid, htest rfl, hsel, hcur, hpar⟩

/-! ## Spend-count limits -/

/-- C20. On every network as constructed the private limit is 7 and the public limit is 637, so
the private limit is at most the public one and every spend count within the private limit is
within the public limit. -/
theorem publicSpendLimit_looser (ext : Externals) (g : Globals) (net : Network)
    (p : CChainParams) (hinit : staticInit ext = some g) (hnet : Params g net = some p) :
    p.consensus.ZC_MaxSpendsPerTx = 7 ∧ p.consensus.ZC_MaxPublicSpendsPerTx = 637 ∧
    p.consensus.ZC_MaxSpendsPerTx ≤ p.consensus.ZC_MaxPublicSpendsPerTx ∧
    (∀ n : Int, n ≤ p.consensus.ZC_MaxSpendsPerTx → n ≤ p.consensus.ZC_MaxPublicSpendsPerTx) := by
  obtain ⟨_, hpub, hpriv, _, _⟩ := Params_consensus ext g net p hinit hnet
  refine ⟨hpriv, hpub, ?_, ?_⟩
  · rw [hpriv, hpub]
    decide
  · intro n hn
    rw [hpriv] at hn
    rw [hpub]
    omega

/-- On the constructed regtest network a count of 7 spends is within the public limit. -/
theorem publicSpendLimit_looser_witness :
    (7 : Int) ≤ sampleGlobals.regTestParams.consensus.ZC_MaxPublicSpendsPerTx :=
  (publicSpendLimit_looser sampleExternals sampleGlobals Network.REGTEST
    sampleGlobals.regTestParams staticInit_sample rfl).2.2.2 7 (by decide)

/-! ## The derivation chain of the three parameter objects -/

/-- Static construction runs the main body on the base object, the testnet body on a main
object and the regtest body on a testnet object. -/
theorem staticInit_chain (ext : Externals) (g : Globals) (hinit : staticInit ext = some g) :
    CMainParams.ctor ext ext.base = some g.mainParams ∧
    CTestNetParams.body ext g.mainParams = some g.testNetParams ∧
    CRegTestParams.body ext g.testNetParams = some g.regTestParams := by
  unfold staticInit at hinit
  cases hm : CMainParams.ctor ext ext.base with
  | none => simp [hm] at hinit
  | some m =>
    cases ht : CTestNetParams.ctor ext ext.base with
    | none => simp [hm, ht] at hinit
    | some t =>
      cases hr : CRegTestParams.ctor ext ext.base with
      | none => simp [hm, ht, hr] at hinit
      | some r =>
        simp only [hm, ht, hr, Option.some_bind, Option.some.injEq] at hinit
        subst hinit
        have ht2 : CTestNetParams.body ext m = some t := by
          unfold CTestNetParams.ctor at ht
          rw [hm] at ht
          exact ht
        have hr2 : CRegTestParams.body ext t = some r := by
          unfold CRegTestParams.ctor at hr
          rw [ht] at hr
          exact hr
        exact ⟨rfl, ht2, hr2⟩

/-- The object that `Params` hands out is one of the three static objects. -/
theorem Params_cases (g : Globals) (net : Network) (p : CChainParams)
    (hnet : Params g net = some p) :
    (net = Network.MAIN ∧ p = g.mainParams) ∨ (net = Network.TESTNET ∧ p = g.testNetParams) ∨
    (net = Network.REGTEST ∧ p = g.regTestParams) := by
  cases net with
  | MAIN => exact Or.inl ⟨rfl, (Option.some.inj hnet).symm⟩
  | TESTNET => exact Or.inr (Or.inl ⟨rfl, (Option.some.inj hnet).symm⟩)
  | REGTEST => exact Or.inr (Or.inr ⟨rfl, (Option.some.inj hnet).symm⟩)
  | MAX_NETWORK_TYPES => simp [Params] at hnet

/-- The testnet body rebuilds the consensus parameters, the genesis block, the message start
bytes and the address prefixes of a main object to the same values, and sets port 51474. -/
theorem CTestNetParams_body_same (ext : Externals) (self m t : CChainParams)
    (hm : CMainParams.ctor ext self = some m) (ht : CTestNetParams.body ext m = some t) :
    t.consensus = m.consensus ∧ t.genesis = m.genesis ∧
    t.pchMessageStart = m.pchMessageStart ∧ t.base58Prefixes = m.base58Prefixes ∧
    m.nDefaultPort = 51472 ∧ t.nDefaultPort = 51474 := by
  simp only [CMainParams.ctor] at hm
  split_ifs at hm
  cases hm
  simp only [CTestNetParams.body] at ht
  split_ifs at ht
  cases ht
  refine ⟨?_, rfl, ?_, ?_, rfl, rfl⟩
  · simp only [Consensus.Params.mk.injEq, true_and, and_true]
    funext idx
    cases idx <;> simp [setActivationHeight, setActivationHash, Function.update]
  · funext i
    fin_cases i <;> simp [Function.update]
  · funext k
    cases k <;> simp [Function.update]

/-- The regtest body rebuilds the consensus parameters, the genesis block and the message start
bytes to the values of the main object, keeps the address prefixes, sets port 51476 and clears
both seed lists. -/
theorem CRegTestParams_body_same (ext : Externals) (self m t r : CChainParams)
    (hm : CMainParams.ctor ext self = some m) (ht : CTestNetParams.body ext m = some t)
    (hr : CRegTestParams.body ext t = some r) :
    r.consensus = m.consensus ∧ r.genesis = m.genesis ∧
    r.pchMessageStart = m.pchMessageStart ∧ r.base58Prefixes = m.base58Prefixes ∧
    r.nDefaultPort = 51476 ∧ r.vSeeds = [] ∧ r.vFixedSeeds = [] := by
  obtain ⟨_, _, _, hpre, _, _⟩ := CTestNetParams_body_same ext self m t hm ht
  simp only [CMainParams.ctor] at hm
  split_ifs at hm
  cases hm
  simp only [CTestNetParams.body] at ht
  split_ifs at ht
  cases ht
  simp only [CRegTestParams.body] at hr
  split_ifs at hr
  cases hr
  refine ⟨?_, rfl, ?_, hpre, rfl, rfl, rfl⟩
  · simp only [Consensus.Params.mk.injEq, true_and, and_true]
    funext idx
    cases idx <;> simp [setActivationHeight, setActivationHash, Function.update]
  · funext i
    fin_cases i <;> simp [Function.update]

/-- The depths, the difficulty ceilings, the pinned genesis values, the address version byte and
the genesis bits that the main constructor leaves. -/
theorem CMainParams_ctor_limits (ext : Externals) (self m : CChainParams)
    (hm : CMainParams.ctor ext self = some m) :
    m.consensus.ZC_MinMintConfirmations = 20 ∧ m.consensus.ZC_MinStakeDepth = 200 ∧
    m.consensus.powLimit = (2 ^ 256 - 1) >>> 20 ∧ m.consensus.posLimitV1 = (2 ^ 256 - 1) >>> 24 ∧
    m.consensus.posLimitV2 = (2 ^ 256 - 1) >>> 20 ∧
    m.consensus.hashGenesisBlock =
      0x000002301ce038d4bcf0d6ef41844463b0be300888b85da7b936073d02944c99 ∧
    m.genesis.hashMerkleRoot =
      0x148723258586946f5463cf095941823596a831f897260dbcbb3670529b028c5f ∧
    m.base58Prefixes Base58Type.PUBKEY_ADDRESS = [65] ∧ m.genesis.nBits = 0x1e0ffff0 := by
  simp only [CMainParams.ctor] at hm
  split_ifs at hm with h1 h2
  cases hm
  refine ⟨rfl, rfl, rfl, rfl, rfl, not_not.mp h1, not_not.mp h2, ?_, rfl⟩
  simp [Function.update]

/-- After static construction the three objects agree on the consensus parameters, the genesis
block, the message start bytes and the address prefixes, and carry ports 51472, 51474, 51476. -/
theorem staticInit_same (ext : Externals) (g : Globals) (hinit : staticInit ext = some g) :
    g.testNetParams.consensus = g.mainParams.consensus ∧
    g.regTestParams.consensus = g.mainParams.consensus ∧
    g.testNetParams.genesis = g.mainParams.genesis ∧
    g.regTestParams.genesis = g.mainParams.genesis ∧
    g.testNetParams.pchMessageStart = g.mainParams.pchMessageStart ∧
    g.regTestParams.pchMessageStart = g.mainParams.pchMessageStart ∧
    g.testNetParams.base58Prefixes = g.mainParams.base58Prefixes ∧
    g.regTestParams.base58Prefixes = g.mainParams.base58Prefixes ∧
    g.mainParams.nDefaultPort = 51472 ∧ g.testNetParams.nDefaultPort = 51474 ∧
    g.regTestParams.nDefaultPort = 51476 := by
  obtain ⟨hm, ht, hr⟩ := staticInit_chain ext g hinit
  obtain ⟨t1, t2, t3, t4, t5, t6⟩ := CTestNetParams_body_same ext _ _ _ hm ht
  obtain ⟨r1, r2, r3, r4, r5, _, _⟩ := CRegTestParams_body_same ext _ _ _ _ hm ht hr
  exact ⟨t1, r1, t2, r2, t3, r3, t4, r4, t5, t6, r5⟩

/-- The depths, the difficulty ceilings, the pinned genesis values, the address version byte and
the genesis bits of every network as constructed. -/
theorem Params_limits (ext : Externals) (g : Globals) (net : Network) (p : CChainParams)
    (hinit : staticInit ext = some g) (hnet : Params g net = some p) :
    p.consensus.ZC_MinMintConfirmations = 20 ∧ p.consensus.ZC_MinStakeDepth = 200 ∧
    p.consensus.powLimit = (2 ^ 256 - 1) >>> 20 ∧ p.consensus.posLimitV1 = (2 ^ 256 - 1) >>> 24 ∧
    p.consensus.posLimitV2 = (2 ^ 256 - 1) >>> 20 ∧
    p.consensus.hashGenesisBlock =
      0x000002301ce038d4bcf0d6ef41844463b0be300888b85da7b936073d02944c99 ∧
    p.genesis.hashMerkleRoot =
      0x148723258586946f5463cf095941823596a831f897260dbcbb3670529b028c5f ∧
    p.base58Prefixes Base58Type.PUBKEY_ADDRESS = [65] ∧ p.genesis.nBits = 0x1e0ffff0 := by
  have hmain := CMainParams_ctor_limits ext ext.base g.mainParams (staticInit_chain ext g hinit).1
  obtain ⟨t1, r1, t2, r2, _, _, t4, r4, _, _, _⟩ := staticInit_same ext g hinit
  rcases Params_cases g net p hnet with ⟨_, rfl⟩ | ⟨_, rfl⟩ | ⟨_, rfl⟩
  · exact hmain
  · rw [t1, t2, t4]
    exact hmain
  · rw [r1, r2, r4]
    exact hmain

/-! ## Confirmation depths -/

/-- C21. On every network as constructed the minimum mint confirmation count is 20 and the
zerocoin minimum stake depth is 200, so the stake depth is the deeper one and every depth that
reaches the stake depth reaches the confirmation count. -/
theorem stakeDepth_deeper (ext : Externals) (g : Globals) (net : Network) (p : CChainParams)
    (hinit : staticInit ext = some g) (hnet : Params g net = some p) :
    p.consensus.ZC_MinMintConfirmations = 20 ∧ p.consensus.ZC_MinStakeDepth = 200 ∧
    p.consensus.ZC_MinStakeDepth > p.consensus.ZC_MinMintConfirmations ∧
    (∀ depth : Int, p.consensus.ZC_MinStakeDepth ≤ depth →
      p.consensus.ZC_MinMintConfirmations ≤ depth) := by
  obtain ⟨hconf, hstake, _⟩ := Params_limits ext g net p hinit hnet
  refine ⟨hconf, hstake, ?_, ?_⟩
  · rw [hconf, hstake]
    decide
  · intro depth hd
    rw [hstake] at hd
    rw [hconf]
    omega

/-- On the constructed test network a depth of 200 reaches the confirmation count. -/
theorem stakeDepth_deeper_witness :
    sampleGlobals.testNetParams.consensus.ZC_MinMintConfirmations ≤ (200 : Int) :=
  (stakeDepth_deeper sampleExternals sampleGlobals Network.TESTNET sampleGlobals.testNetParams
    staticInit_sample rfl).2.2.2 200 (by decide)

/-! ## Result construction -/

/-- C22. Result construction: `PairResult(b)` has result `b` and a null status, also when `b`
is the failing verdict; `PairResult(b, s)` has result `b` and status `s`. -/
theorem pairResult_construction (b : Bool) (s : Option String) :
    (PairResult.ofResult b).result = b ∧ (PairResult.ofResult b).status = none ∧
    (PairResult.ofResult false).status = none ∧
    (PairResult.ofResultStatus b s).result = b ∧ (PairResult.ofResultStatus b s).status = s :=
  ⟨rfl, rfl, rfl, rfl, rfl⟩

/-! ## The genesis block -/

/-- The header fields, the transaction list and the merkle root of the block that the
seven-argument `CreateGenesisBlock` returns. -/
theorem withScript_fields (ext : Externals) (pszTimestamp : String) (script : CScript)
    (nTime nNonce nBits : Nat) (nVersion : Int) (reward : CAmount) :
    (CreateGenesisBlock.withScript ext pszTimestamp script nTime nNonce nBits nVersion
      reward).toCBlockHeader =
      { nVersion := nVersion, hashPrevBlock := 0, nTime := nTime, nBits := nBits,
        nNonce := nNonce,
        hashMerkleRoot := ext.BlockMerkleRoot
          { nVersion := nVersion, hashPrevBlock := 0, hashMerkleRoot := 0, nTime := nTime,
            nBits := nBits, nNonce := nNonce, vchBlockSig := [],
            vtx := [{ nVersion := 1,
                      vin := [{ scriptSig := [ScriptItem.int 486604799, ScriptItem.scriptNum 4,
                        ScriptItem.bytes
                          ((pszTimestamp.toUTF8.data.toList.takeWhile (· ≠ 0)).map
                            UInt8.toNat)] }],
                      vout := [{ nValue := reward, scriptPubKey := script }] }] } } ∧
    (CreateGenesisBlock.withScript ext pszTimestamp script nTime nNonce nBits nVersion
      reward).vtx =
      [{ nVersion := 1,
         vin := [{ scriptSig := [ScriptItem.int 486604799, ScriptItem.scriptNum 4,
           ScriptItem.bytes
             ((pszTimestamp.toUTF8.data.toList.takeWhile (· ≠ 0)).map UInt8.toNat)] }],
         vout := [{ nValue := reward, scriptPubKey := script }] }] ∧
    (CreateGenesisBlock.withScript ext pszTimestamp script nTime nNonce nBits nVersion
      reward).vchBlockSig = [] :=
  ⟨rfl, rfl, rfl⟩

/-- C24. For all arguments the block that `CreateGenesisBlock` returns (either overload) has
`nVersion`, `nTime`, `nBits` and `nNonce` equal to the arguments and a null previous-block hash;
its transaction list does not depend on those four arguments, and its merkle root is
`BlockMerkleRoot` of the block; hence, `BlockMerkleRoot` reading the transaction list only, two
calls that differ only in `nTime`, `nNonce`, `nBits` or `nVersion` return the same merkle
root. -/
theorem createGenesisBlock_header (ext : Externals) (pszTimestamp : String) (script : CScript)
    (nTime nNonce nBits : Nat) (nVersion : Int) (reward : CAmount)
    (hvtx : ∀ b1 b2 : CBlock, b1.vtx = b2.vtx → ext.BlockMerkleRoot b1 = ext.BlockMerkleRoot b2) :
    ((CreateGenesisBlock.withScript ext pszTimestamp script nTime nNonce nBits nVersion
        reward).nVersion = nVersion ∧
      (CreateGenesisBlock.withScript ext pszTimestamp script nTime nNonce nBits nVersion
        reward).nTime = nTime ∧
      (CreateGenesisBlock.withScript ext pszTimestamp script nTime nNonce nBits nVersion
        reward).nBits = nBits ∧
      (CreateGenesisBlock.withScript ext pszTimestamp script nTime nNonce nBits nVersion
        reward).nNonce = nNonce ∧
      (CreateGenesisBlock.withScript ext pszTimestamp script nTime nNonce nBits nVersion
        reward).hashPrevBlock = 0 ∧
      (CreateGenesisBlock.withScript ext pszTimestamp script nTime nNonce nBits nVersion
        reward).hashMerkleRoot = ext.BlockMerkleRoot
          { CreateGenesisBlock.withScript ext pszTimestamp script nTime nNonce nBits nVersion
              reward with hashMerkleRoot := 0 }) ∧
    ((CreateGenesisBlock ext nTime nNonce nBits nVersion reward).nVersion = nVersion ∧
      (CreateGenesisBlock ext nTime nNonce nBits nVersion reward).nTime = nTime ∧
      (CreateGenesisBlock ext nTime nNonce nBits nVersion reward).nBits = nBits ∧
      (CreateGenesisBlock ext nTime nNonce nBits nVersion reward).nNonce = nNonce ∧
      (CreateGenesisBlock ext nTime nNonce nBits nVersion reward).hashPrevBlock = 0) ∧
    (∀ (nTime1 nNonce1 nBits1 : Nat) (nVersion1 : Int),
      (CreateGenesisBlock.withScript ext pszTimestamp script nTime1 nNonce1 nBits1 nVersion1
          reward).vtx =
        (CreateGenesisBlock.withScript ext pszTimestamp script nTime nNonce nBits nVersion
          reward).vtx ∧
      (CreateGenesisBlock.withScript ext pszTimestamp script nTime1 nNonce1 nBits1 nVersion1
          reward).hashMerkleRoot =
        (CreateGenesisBlock.withScript ext pszTimestamp script nTime nNonce nBits nVersion
          reward).hashMerkleRoot ∧
      (CreateGenesisBlock ext nTime1 nNonce1 nBits1 nVersion1 reward).vtx =
        (CreateGenesisBlock ext nTime nNonce nBits nVersion reward).vtx ∧
      (CreateGenesisBlock ext nTime1 nNonce1 nBits1 nVersion1 reward).hashMerkleRoot =
        (CreateGenesisBlock ext nTime nNonce nBits nVersion reward).hashMerkleRoot) := by
  refine ⟨⟨rfl, rfl, rfl, rfl, rfl, rfl⟩, ⟨rfl, rfl, rfl, rfl, rfl⟩, ?_⟩
  intro nTime1 nNonce1 nBits1 nVersion1
  refine ⟨rfl, ?_, rfl, ?_⟩
  · exact hvtx _ _ rfl
  · exact hvtx _ _ rfl

/-- With a merkle root that reads the transaction list only, the genesis arguments of the
networks and a call with other header arguments give the same merkle root. -/
theorem createGenesisBlock_header_witness :
    (CreateGenesisBlock sampleExternalsMerkle 7 8 9 2 25000000000).hashMerkleRoot =
      (CreateGenesisBlock sampleExternalsMerkle 1600458983 1112032 0x1e0ffff0 1
        25000000000).hashMerkleRoot :=
  ((createGenesisBlock_header sampleExternalsMerkle "" [] 1600458983 1112032 0x1e0ffff0 1
    25000000000 (by
      intro b1 b2 h
      simp only [sampleExternalsMerkle, h])).2.2 7 8 9 2).2.2.2

/-- C25. For all arguments the block that `CreateGenesisBlock` returns contains exactly one
transaction, of version 1, with exactly one input and exactly one output, whose value is
`genesisReward` and whose script is `genesisOutputScript`; the five-argument overload is the
seven-argument one with the empty timestamp string and, as output script, a 65-byte public key
followed by `OP_CHECKSIG`. -/
theorem createGenesisBlock_coinbase (ext : Externals) (pszTimestamp : String) (script : CScript)
    (nTime nNonce nBits : Nat) (nVersion : Int) (reward : CAmount) :
    (∃ tx txin, (CreateGenesisBlock.withScript ext pszTimestamp script nTime nNonce nBits nVersion
        reward).vtx = [tx] ∧ tx.nVersion = 1 ∧ tx.vin = [txin] ∧
      tx.vout = [{ nValue := reward, scriptPubKey := script }]) ∧
    (∃ pubkey, pubkey.length = 65 ∧
      CreateGenesisBlock ext nTime nNonce nBits nVersion reward =
        CreateGenesisBlock.withScript ext "" [ScriptItem.bytes pubkey, ScriptItem.OP_CHECKSIG]
          nTime nNonce nBits nVersion reward) :=
  ⟨⟨_, _, rfl, rfl, rfl, rfl⟩, ⟨_, by rfl, rfl⟩⟩

/-! ## The three network profiles -/

/-- C26. After static construction the main, test and regtest parameter objects agree on every
consensus parameter (limits, timing windows, height-based activations, bad-block pair, zerocoin
parameters, upgrade table, pinned hashes), on the genesis block and its arguments, on the message
start bytes and on the address prefixes; the remaining fields are the network id and name, the
default port (51472, 51474, 51476) and the seed lists, and the checkpoint data is per network. -/
theorem network_profiles_agree (ext : Externals) (g : Globals)
    (hinit : staticInit ext = some g) :
    (g.testNetParams.consensus = g.mainParams.consensus ∧
      g.regTestParams.consensus = g.mainParams.consensus) ∧
    (g.testNetParams.genesis = g.mainParams.genesis ∧
      g.regTestParams.genesis = g.mainParams.genesis ∧
      g.mainParams.genesis =
        CreateGenesisBlock ext 1600458983 1112032 0x1e0ffff0 1 (250 * ext.COIN)) ∧
    (g.testNetParams.pchMessageStart = g.mainParams.pchMessageStart ∧
      g.regTestParams.pchMessageStart = g.mainParams.pchMessageStart) ∧
    (g.testNetParams.base58Prefixes = g.mainParams.base58Prefixes ∧
      g.regTestParams.base58Prefixes = g.mainParams.base58Prefixes) ∧
    (g.testNetParams = { g.mainParams with
        networkID := Network.TESTNET, strNetworkID := "test", nDefaultPort := 51474,
        vSeeds := g.testNetParams.vSeeds, vFixedSeeds := g.testNetParams.vFixedSeeds } ∧
      g.regTestParams = { g.mainParams with
        networkID := Network.REGTEST, strNetworkID := "regtest", nDefaultPort := 51476,
        vSeeds := [], vFixedSeeds := [] }) ∧
    (g.mainParams.networkID = Network.MAIN ∧ g.mainParams.strNetworkID = "main" ∧
      g.mainParams.nDefaultPort = 51472) := by
  obtain ⟨t1, r1, t2, r2, t3, r3, t4, r4, pm, pt, pr⟩ := staticInit_same ext g hinit
  obtain ⟨hm, ht, hr⟩ := staticInit_chain ext g hinit
  obtain ⟨_, _, _, _, _, hrs, hrf⟩ := CRegTestParams_body_same ext _ _ _ _ hm ht hr
  have hgen := (Params_fields ext g Network.MAIN g.mainParams hinit rfl).2.2
  obtain ⟨idm, nmm, _, _⟩ := Params_identity ext g Network.MAIN g.mainParams hinit rfl
  obtain ⟨idt, _, nmt, _⟩ := Params_identity ext g Network.TESTNET g.testNetParams hinit rfl
  obtain ⟨idr, _, _, nmr⟩ := Params_identity ext g Network.REGTEST g.regTestParams hinit rfl
  refine ⟨⟨t1, r1⟩, ⟨t2, r2, hgen⟩, ⟨t3, r3⟩, ⟨t4, r4⟩, ⟨?_, ?_⟩, ⟨idm, nmm rfl, pm⟩⟩
  · dsimp only
    rw [← t1, ← t2, ← t3, ← t4, ← idt, ← nmt rfl, ← pt]
  · dsimp only
    rw [← r1, ← r2, ← r3, ← r4, ← idr, ← nmr rfl, ← pr, ← hrs, ← hrf]

/-- On `sampleGlobals` the regtest consensus parameters are those of the main network. -/
theorem network_profiles_agree_witness :
    sampleGlobals.regTestParams.consensus = sampleGlobals.mainParams.consensus :=
  (network_profiles_agree sampleExternals sampleGlobals staticInit_sample).1.2

/-- C27. The checkpoint map of each network has the single entry at height 0; after static
construction the main entry is the genesis hash that the constructor asserts, while the test
and regtest entries are the value 1, which is not the genesis hash those constructors assert. -/
theorem checkpoints_versus_genesis (ext : Externals) (g : Globals) (net : Network)
    (p : CChainParams) (hinit : staticInit ext = some g) (hnet : Params g net = some p) :
    p.consensus.hashGenesisBlock =
      0x000002301ce038d4bcf0d6ef41844463b0be300888b85da7b936073d02944c99 ∧
    (∃ d hash, Checkpoints net = some d ∧ d.mapCheckpoints = [(0, hash)] ∧
      (net = Network.MAIN → hash = p.consensus.hashGenesisBlock) ∧
      (net = Network.TESTNET → hash = 1 ∧ hash ≠ p.consensus.hashGenesisBlock) ∧
      (net = Network.REGTEST → hash = 1 ∧ hash ≠ p.consensus.hashGenesisBlock)) := by
  obtain ⟨_, _, _, _, _, hgen, _⟩ := Params_limits ext g net p hinit hnet
  refine ⟨hgen, ?_⟩
  rw [hgen]
  cases net with
  | MAIN =>
    refine ⟨data, _, rfl, rfl, fun _ => rfl, ?_, ?_⟩ <;> intro hn <;> cases hn
  | TESTNET =>
    refine ⟨dataTestnet, _, rfl, rfl, ?_, fun _ => ⟨rfl, by decide⟩, ?_⟩ <;> intro hn <;>
      cases hn
  | REGTEST =>
    refine ⟨dataRegtest, _, rfl, rfl, ?_, ?_, fun _ => ⟨rfl, by decide⟩⟩ <;> intro hn <;>
      cases hn
  | MAX_NETWORK_TYPES => simp [Params] at hnet

/-- On `sampleGlobals` the testnet checkpoint at height 0 is 1, not the testnet genesis hash. -/
theorem checkpoints_versus_genesis_witness :
    ∃ d hash, Checkpoints Network.TESTNET = some d ∧ d.mapCheckpoints = [(0, hash)] ∧
      hash = 1 ∧ hash ≠ sampleGlobals.testNetParams.consensus.hashGenesisBlock := by
  obtain ⟨_, d, hash, hd, hmap, _, htest, _⟩ :=
    checkpoints_versus_genesis sampleExternals sampleGlobals Network.TESTNET
      sampleGlobals.testNetParams staticInit_sample rfl
  exact ⟨d, hash, hd, hmap, (htest rfl).1, (htest rfl).2⟩

/-! ## Updating a regtest activation height -/

/-- C28. `UpdateNetworkUpgradeParameters(idx, h)` goes through exactly when
`BASE_NETWORK < idx < MAX_NETWORK_UPGRADES`, so never for `BASE_NETWORK`; when it does, entry
`idx` of the regtest table has activation height `h`, every other entry and the pinned hash of
entry `idx` are as before, every other field of the regtest object is as before, and so are the
main and test objects and the selection. -/
theorem updateNetworkUpgrade_effect (ext : Externals) (g : Globals) (idx : UpgradeIndex)
    (h : Int) :
    ((∃ g1, UpdateNetworkUpgradeParameters ext g idx h = some g1) ↔
      ext.upgradeIndexValue UpgradeIndex.BASE_NETWORK < ext.upgradeIndexValue idx ∧
      ext.upgradeIndexValue idx < ext.MAX_NETWORK_UPGRADES) ∧
    UpdateNetworkUpgradeParameters ext g UpgradeIndex.BASE_NETWORK h = none ∧
    (∀ g1, UpdateNetworkUpgradeParameters ext g idx h = some g1 →
      idx ≠ UpgradeIndex.BASE_NETWORK ∧
      ActivationHeight g1.regTestParams.consensus idx = h ∧
      (∀ j, j ≠ idx →
        g1.regTestParams.consensus.vUpgrades j = g.regTestParams.consensus.vUpgrades j) ∧
      (g1.regTestParams.consensus.vUpgrades idx).hashActivationBlock =
        (g.regTestParams.consensus.vUpgrades idx).hashActivationBlock ∧
      g1.regTestParams = withUpgrades g.regTestParams g1.regTestParams.consensus.vUpgrades ∧
      g1.mainParams = g.mainParams ∧ g1.testNetParams = g.testNetParams ∧
      g1.pCurrentParams = g.pCurrentParams) := by
  have hbase : UpdateNetworkUpgradeParameters ext g UpgradeIndex.BASE_NETWORK h = none := by
    simp [UpdateNetworkUpgradeParameters, CRegTestParams.UpdateNetworkUpgradeParameters]
  refine ⟨?_, hbase, ?_⟩
  · constructor
    · rintro ⟨g1, hg1⟩
      unfold UpdateNetworkUpgradeParameters CRegTestParams.UpdateNetworkUpgradeParameters at hg1
      split_ifs at hg1 with hc
      · exact ⟨hc.1, hc.2⟩
      · simp at hg1
    · intro hc
      have hc2 : ext.upgradeIndexValue idx > ext.upgradeIndexValue UpgradeIndex.BASE_NETWORK ∧
          ext.upgradeIndexValue idx < ext.MAX_NETWORK_UPGRADES := ⟨hc.1, hc.2⟩
      have hsome : (UpdateNetworkUpgradeParameters ext g idx h).isSome = true := by
        simp only [UpdateNetworkUpgradeParameters,
          CRegTestParams.UpdateNetworkUpgradeParameters, if_pos hc2, Option.map_some',
          Option.isSome_some]
      exact Option.isSome_iff_exists.mp hsome
  · intro g1 hg1
    have hne : idx ≠ UpgradeIndex.BASE_NETWORK := by
      intro hidx
      rw [hidx, hbase] at hg1
      cases hg1
    have hg := UpdateNetworkUpgradeParameters_frame ext g g1 idx h hg1
    subst hg
    refine ⟨hne, ?_, ?_, setActivationHeight_hash _ idx idx h, rfl, rfl, rfl, rfl⟩
    · simp [ActivationHeight, withUpgrades, setActivationHeight]
    · intro j hj
      simp [withUpgrades, setActivationHeight, Function.update, hj]

/-- On `sampleRegtestSelected` the update of `UPGRADE_POS` to height 1 goes through and leaves
the main object as it was. -/
theorem updateNetworkUpgrade_effect_witness :
    ∃ g1, UpdateNetworkUpgradeParameters sampleExternals sampleRegtestSelected
        UpgradeIndex.UPGRADE_POS 1 = some g1 ∧
      ActivationHeight g1.regTestParams.consensus UpgradeIndex.UPGRADE_POS = 1 ∧
      g1.mainParams = sampleRegtestSelected.mainParams := by
  obtain ⟨g1, hg1⟩ := (updateNetworkUpgrade_effect sampleExternals sampleRegtestSelected
    UpgradeIndex.UPGRADE_POS 1).1.2 ⟨by decide, by decide⟩
  obtain ⟨_, hh, _, _, _, hm, _, _⟩ := (updateNetworkUpgrade_effect sampleExternals
    sampleRegtestSelected UpgradeIndex.UPGRADE_POS 1).2.2 g1 hg1
  exact ⟨g1, hg1, hh, hm⟩

/-! ## Order of the finite activation heights -/

/-- At an activation height that is neither sentinel, an upgrade is active exactly from that
height on. -/
theorem isActive_ordinary (ext : Externals) (params : Consensus.Params) (idx : UpgradeIndex)
    (h : Int) (hord : ext.isOrdinaryHeight (ActivationHeight params idx)) :
    IsActive ext params idx h = decide (ActivationHeight params idx ≤ h) := by
  obtain ⟨hnever, halways⟩ := hord
  simp only [IsActive, if_neg hnever, if_neg halways]

/-- C29. On every network as constructed the activation heights of `UPGRADE_POS`,
`UPGRADE_POS_V2`, `UPGRADE_ZC`, `UPGRADE_ZC_V2`, `UPGRADE_V3_4`, `UPGRADE_V4_0`,
`UPGRADE_ZC_PUBLIC` are 5001, 5010, 5050, 5100, 5300, 5400, 6000, strictly increasing; hence
(none of the seven being a sentinel value) at every height where a later upgrade of this chain is
active every earlier one is active, and public zerocoin spends are never enabled before zerocoin
v1 and v2. -/
theorem activation_heights_increasing (ext : Externals) (g : Globals) (net : Network)
    (p : CChainParams) (h : Int) (hinit : staticInit ext = some g)
    (hnet : Params g net = some p)
    (hord : ∀ x ∈ [(5001 : Int), 5010, 5050, 5100, 5300, 5400, 6000], ext.isOrdinaryHeight x) :
    [UpgradeIndex.UPGRADE_POS, UpgradeIndex.UPGRADE_POS_V2, UpgradeIndex.UPGRADE_ZC,
      UpgradeIndex.UPGRADE_ZC_V2, UpgradeIndex.UPGRADE_V3_4, UpgradeIndex.UPGRADE_V4_0,
      UpgradeIndex.UPGRADE_ZC_PUBLIC].map (ActivationHeight p.consensus) =
      [5001, 5010, 5050, 5100, 5300, 5400, 6000] ∧
    List.Pairwise (fun a b : Int => a < b)
      ([UpgradeIndex.UPGRADE_POS, UpgradeIndex.UPGRADE_POS_V2, UpgradeIndex.UPGRADE_ZC,
        UpgradeIndex.UPGRADE_ZC_V2, UpgradeIndex.UPGRADE_V3_4, UpgradeIndex.UPGRADE_V4_0,
        UpgradeIndex.UPGRADE_ZC_PUBLIC].map (ActivationHeight p.consensus)) ∧
    (∀ earlier later,
      earlier ∈ [UpgradeIndex.UPGRADE_POS, UpgradeIndex.UPGRADE_POS_V2, UpgradeIndex.UPGRADE_ZC,
        UpgradeIndex.UPGRADE_ZC_V2, UpgradeIndex.UPGRADE_V3_4, UpgradeIndex.UPGRADE_V4_0,
        UpgradeIndex.UPGRADE_ZC_PUBLIC] →
      later ∈ [UpgradeIndex.UPGRADE_POS, UpgradeIndex.UPGRADE_POS_V2, UpgradeIndex.UPGRADE_ZC,
        UpgradeIndex.UPGRADE_ZC_V2, UpgradeIndex.UPGRADE_V3_4, UpgradeIndex.UPGRADE_V4_0,
        UpgradeIndex.UPGRADE_ZC_PUBLIC] →
      ActivationHeight p.consensus earlier ≤ ActivationHeight p.consensus later →
      IsActive ext p.consensus later h = true → IsActive ext p.consensus earlier h = true) ∧
    (IsActive ext p.consensus UpgradeIndex.UPGRADE_ZC_PUBLIC h = true →
      IsActive ext p.consensus UpgradeIndex.UPGRADE_ZC h = true ∧
      IsActive ext p.consensus UpgradeIndex.UPGRADE_ZC_V2 h = true) := by
  have htab := (Params_consensus ext g net p hinit hnet).1
  have hmap : [UpgradeIndex.UPGRADE_POS, UpgradeIndex.UPGRADE_POS_V2, UpgradeIndex.UPGRADE_ZC,
      UpgradeIndex.UPGRADE_ZC_V2, UpgradeIndex.UPGRADE_V3_4, UpgradeIndex.UPGRADE_V4_0,
      UpgradeIndex.UPGRADE_ZC_PUBLIC].map (ActivationHeight p.consensus) =
      [5001, 5010, 5050, 5100, 5300, 5400, 6000] := by
    simp only [List.map_cons, List.map_nil, htab]
  have hmem : ∀ u, u ∈ [UpgradeIndex.UPGRADE_POS, UpgradeIndex.UPGRADE_POS_V2,
      UpgradeIndex.UPGRADE_ZC, UpgradeIndex.UPGRADE_ZC_V2, UpgradeIndex.UPGRADE_V3_4,
      UpgradeIndex.UPGRADE_V4_0, UpgradeIndex.UPGRADE_ZC_PUBLIC] →
      ext.isOrdinaryHeight (ActivationHeight p.consensus u) := by
    intro u hu
    apply hord
    rw [← hmap]
    exact List.mem_map_of_mem _ hu
  have hstep : ∀ earlier later,
      earlier ∈ [UpgradeIndex.UPGRADE_POS, UpgradeIndex.UPGRADE_POS_V2, UpgradeIndex.UPGRADE_ZC,
        UpgradeIndex.UPGRADE_ZC_V2, UpgradeIndex.UPGRADE_V3_4, UpgradeIndex.UPGRADE_V4_0,
        UpgradeIndex.UPGRADE_ZC_PUBLIC] →
      later ∈ [UpgradeIndex.UPGRADE_POS, UpgradeIndex.UPGRADE_POS_V2, UpgradeIndex.UPGRADE_ZC,
        UpgradeIndex.UPGRADE_ZC_V2, UpgradeIndex.UPGRADE_V3_4, UpgradeIndex.UPGRADE_V4_0,
        UpgradeIndex.UPGRADE_ZC_PUBLIC] →
      ActivationHeight p.consensus earlier ≤ ActivationHeight p.consensus later →
      IsActive ext p.consensus later h = true → IsActive ext p.consensus earlier h = true := by
    intro earlier later he hl hle hact
    rw [isActive_ordinary ext p.consensus later h (hmem later hl)] at hact
    rw [isActive_ordinary ext p.consensus earlier h (hmem earlier he)]
    simp only [decide_eq_true_eq] at hact ⊢
    omega
  refine ⟨hmap, ?_, hstep, ?_⟩
  · rw [hmap]
    decide
  · intro hact
    constructor
    · refine hstep UpgradeIndex.UPGRADE_ZC UpgradeIndex.UPGRADE_ZC_PUBLIC (by decide) (by decide)
        ?_ hact
      rw [htab, htab]
      exact (by decide : (5050 : Int) ≤ 6000)
    · refine hstep UpgradeIndex.UPGRADE_ZC_V2 UpgradeIndex.UPGRADE_ZC_PUBLIC (by decide)
        (by decide) ?_ hact
      rw [htab, htab]
      exact (by decide : (5100 : Int) ≤ 6000)

/-- On the constructed main network, at height 6000, where public spends are active, zerocoin
v1 is active. -/
theorem activation_heights_increasing_witness :
    IsActive sampleExternals sampleGlobals.mainParams.consensus UpgradeIndex.UPGRADE_ZC 6000
      = true :=
  ((activation_heights_increasing sampleExternals sampleGlobals Network.MAIN
    sampleGlobals.mainParams 6000 staticInit_sample rfl (by
      intro x hx
      simp only [List.mem_cons, List.mem_singleton, List.not_mem_nil, or_false] at hx
      rcases hx with rfl | rfl | rfl | rfl | rfl | rfl | rfl <;>
        exact ⟨by decide, by decide⟩)).2.2.2 (by rfl)).1

/-! ## Difficulty ceilings -/

/-- C30. On every network as constructed `powLimit` is 2^236 - 1, `posLimitV1` is 2^232 - 1 and
`posLimitV2` is 2^236 - 1, so `posLimitV1 ≤ posLimitV2 = powLimit`; the genesis bits are
0x1e0ffff0, with mantissa 0x0ffff0 and exponent 0x1e, and the target they spell, the mantissa
shifted left by 8 * (0x1e - 3) bits, does not exceed `powLimit`. -/
theorem difficulty_ceilings (ext : Externals) (g : Globals) (net : Network) (p : CChainParams)
    (hinit : staticInit ext = some g) (hnet : Params g net = some p) :
    p.consensus.powLimit = 2 ^ 236 - 1 ∧ p.consensus.posLimitV1 = 2 ^ 232 - 1 ∧
    p.consensus.posLimitV2 = 2 ^ 236 - 1 ∧
    p.consensus.posLimitV1 ≤ p.consensus.posLimitV2 ∧
    p.consensus.posLimitV2 = p.consensus.powLimit ∧
    p.genesis.nBits = 0x1e0ffff0 ∧
    p.genesis.nBits % 2 ^ 24 = 0x0ffff0 ∧ p.genesis.nBits / 2 ^ 24 = 0x1e ∧
    (p.genesis.nBits % 2 ^ 24) <<< (8 * (p.genesis.nBits / 2 ^ 24 - 3)) ≤
      p.consensus.powLimit := by
  obtain ⟨_, _, hpow, hv1, hv2, _, _, _, hbits⟩ := Params_limits ext g net p hinit hnet
  rw [hpow, hv1, hv2, hbits]
  refine ⟨by decide, by decide, by decide, by decide, rfl, rfl, by decide, by decide,
    by decide⟩

/-- On the constructed regtest network the genesis target is below the proof-of-work limit. -/
theorem difficulty_ceilings_witness :
    (sampleGlobals.regTestParams.genesis.nBits % 2 ^ 24) <<<
        (8 * (sampleGlobals.regTestParams.genesis.nBits / 2 ^ 24 - 3)) ≤
      sampleGlobals.regTestParams.consensus.powLimit :=
  (difficulty_ceilings sampleExternals sampleGlobals Network.REGTEST
    sampleGlobals.regTestParams staticInit_sample rfl).2.2.2.2.2.2.2.2

/-! ## Address text of a public-key hash -/

/-- The digits of a number between two consecutive powers of the base: the leading digit is the
quotient by the lower power, and as many digits follow as the exponent says. -/
theorem digits_reverse_of_pow_le (b : Nat) (hb : 1 < b) (k : Nat) :
    ∀ n, b ^ k ≤ n → n < b ^ (k + 1) →
      ∃ rest, (Nat.digits b n).reverse = (n / b ^ k) :: rest ∧ rest.length = k := by
  induction k with
  | zero =>
    intro n h1 h2
    simp only [pow_zero, zero_add, pow_one] at h1 h2
    refine ⟨[], ?_, rfl⟩
    rw [Nat.digits_of_lt b n (by omega) h2]
    simp
  | succ k ih =>
    intro n h1 h2
    have hbpos : 0 < b := by omega
    have hnpos : 0 < n := lt_of_lt_of_le (pow_pos hbpos _) h1
    have hq1 : b ^ k ≤ n / b := by
      rw [Nat.le_div_iff_mul_le hbpos]
      rw [pow_succ] at h1
      exact h1
    have hq2 : n / b < b ^ (k + 1) := by
      rw [Nat.div_lt_iff_lt_mul hbpos]
      rw [pow_succ (n := k + 1)] at h2
      exact h2
    obtain ⟨rest, hrest, hlen⟩ := ih (n / b) hq1 hq2
    refine ⟨rest ++ [n % b], ?_, by simp [hlen]⟩
    rw [Nat.digits_def' hb hnpos, List.reverse_cons, hrest, Nat.div_div_eq_div_mul, pow_succ']
    rfl

/-- The number spelled by a byte string with a leading byte: the leading byte times 256 to the
number of remaining bytes, plus a remainder below that power. -/
theorem bytesToNat_cons (v : Nat) (rest : List Nat) (hrest : ∀ x ∈ rest, x < 256) :
    ∃ r, r < 256 ^ rest.length ∧ bytesToNat (v :: rest) = v * 256 ^ rest.length + r := by
  refine ⟨Nat.ofDigits 256 rest.reverse, ?_, ?_⟩
  · have h := Nat.ofDigits_lt_base_pow_length (b := 256) (l := rest.reverse) (by norm_num)
      (fun x hx => hrest x (List.mem_reverse.mp hx))
    rwa [List.length_reverse] at h
  · unfold bytesToNat
    rw [List.reverse_cons, Nat.ofDigits_append, Nat.ofDigits_singleton, List.length_reverse]
    ring

/-- C23. On every network as constructed the `PUBKEY_ADDRESS` version byte is 65, and for every
20-byte key hash and every 4-byte checksum the Base58 text of the 25 bytes (version byte, hash,
checksum) has 34 characters, the first of which is the letter T. -/
theorem pubkeyAddress_text (ext : Externals) (g : Globals) (net : Network) (p : CChainParams)
    (hash checksum : List Nat) (hinit : staticInit ext = some g)
    (hnet : Params g net = some p) (hhash : hash.length = 20) (hsum : checksum.length = 4)
    (hbytes : ∀ x ∈ hash ++ checksum, x < 256) :
    p.base58Prefixes Base58Type.PUBKEY_ADDRESS = [65] ∧
    (EncodeBase58 (p.base58Prefixes Base58Type.PUBKEY_ADDRESS ++ hash ++ checksum)).length
      = 34 ∧
    (EncodeBase58 (p.base58Prefixes Base58Type.PUBKEY_ADDRESS ++ hash ++ checksum)).toList.head?
      = some 'T' := by
  obtain ⟨_, _, _, _, _, _, _, hver, _⟩ := Params_limits ext g net p hinit hnet
  have hlen : (hash ++ checksum).length = 24 := by
    rw [List.length_append, hhash, hsum]
  obtain ⟨r, hr, hN⟩ := bytesToNat_cons 65 (hash ++ checksum) hbytes
  rw [hlen] at hr hN
  have hlo : 58 ^ 33 ≤ bytesToNat (65 :: (hash ++ checksum)) := by
    rw [hN]
    have : (58 : Nat) ^ 33 ≤ 65 * 256 ^ 24 := by norm_num
    omega
  have hhi : bytesToNat (65 :: (hash ++ checksum)) < 58 ^ (33 + 1) := by
    rw [hN]
    have : (66 : Nat) * 256 ^ 24 ≤ 58 ^ (33 + 1) := by norm_num
    omega
  have hdiv : bytesToNat (65 :: (hash ++ checksum)) / 58 ^ 33 = 26 := by
    rw [hN]
    apply Nat.div_eq_of_lt_le
    · have : (26 : Nat) * 58 ^ 33 ≤ 65 * 256 ^ 24 := by norm_num
      omega
    · have : (66 : Nat) * 256 ^ 24 ≤ (26 + 1) * 58 ^ 33 := by norm_num
      omega
  obtain ⟨rest, hdig, hrestlen⟩ :=
    digits_reverse_of_pow_le 58 (by norm_num) 33 _ hlo hhi
  rw [hdiv] at hdig
  have henc : EncodeBase58 (65 :: (hash ++ checksum)) =
      String.mk ('T' :: rest.map fun d => pszBase58.toList.getD d '1') := by
    simp only [EncodeBase58, hdig, List.takeWhile_cons, List.map_cons]
    rfl
  refine ⟨hver, ?_, ?_⟩
  · rw [hver, List.append_assoc, List.singleton_append, henc]
    simp only [String.length, List.length_cons, List.length_map, hrestlen]
  · rw [hver, List.append_assoc, List.singleton_append, henc]
    rfl

/-- On the constructed main network the address text of `sampleKeyHash` with `sampleChecksum`
has 34 characters and starts with T. -/
theorem pubkeyAddress_text_witness :
    (EncodeBase58 (sampleGlobals.mainParams.base58Prefixes Base58Type.PUBKEY_ADDRESS ++
        sampleKeyHash ++ sampleChecksum)).length = 34 ∧
    (EncodeBase58 (sampleGlobals.mainParams.base58Prefixes Base58Type.PUBKEY_ADDRESS ++
        sampleKeyHash ++ sampleChecksum)).toList.head? = some 'T' :=
  (pubkeyAddress_text sampleExternals sampleGlobals Network.MAIN sampleGlobals.mainParams
    sampleKeyHash sampleChecksum staticInit_sample rfl rfl rfl (by decide)).2

end Tarian
